import Mathlib

/-!
Shallow embedding of the distributed-transactions benchmark
(matheusmosca/distributed-transactions-benchmark).

Each participant service owns a relational store; we model a store as an
association list keyed by the row's primary key, together with ledger rows
kept as a plain list (newest row first, so a cons models an SQL INSERT and
taking the first match models `ORDER BY created_at DESC LIMIT 1`).

A use-case that runs inside one database transaction is modelled as a
function `State → Except String State`: an `.error` result is the Go path
where the deferred `tx.Rollback()` fires, so the caller keeps the original
state; an `.ok` result carries the committed state.  HTTP handlers are
modelled as the status code they derive from the use-case result.
-/

namespace Bench

/-- Association-list lookup, the embedding of `SELECT ... WHERE key = $1`. -/
def lookupA {α : Type} : List (String × α) → String → Option α
  | [], _ => none
  | (k, v) :: rest, key => if k = key then some v else lookupA rest key

/-- Row update over an association list, the embedding of
`UPDATE ... SET ... WHERE key = $1` (every row whose key matches is mapped). -/
def adjustA {α : Type} (l : List (String × α)) (key : String) (f : α → α) :
    List (String × α) :=
  l.map fun kv => if kv.1 = key then (kv.1, f kv.2) else kv

/-- Substring scan mirroring the Go helper `containsAny` in the Saga handlers:
`matchesAt sub l` is the prefix test performed at one scan position. -/
def matchesAt : List Char → List Char → Bool
  | [], _ => true
  | _ :: _, [] => false
  | a :: as, b :: bs => a = b && matchesAt as bs

/-- Scan of every position of `l` for the pattern `sub` (the inner loop of the
Go `containsAny`). -/
def scanFor (sub : List Char) : List Char → Bool
  | [] => matchesAt sub []
  | c :: cs => matchesAt sub (c :: cs) || scanFor sub cs

/-- Embedding of the Go handler helper `containsAny(s, substrs)`. -/
def containsAny (s : String) (subs : List String) : Bool :=
  subs.any fun sub => scanFor sub.toList s.toList

end Bench

namespace Bench.TCCInv

/-- Row of `products_inventory` in the TCC inventory service
(`current_stock`, `stock_available`; name and timestamps dropped). -/
structure Product where
  currentStock : Int
  stockAvailable : Int
deriving DecidableEq, Repr

/-- Row of `inventory_movements` in the TCC inventory service
(`movement_type` is always the literal `decrease` and is dropped). -/
structure Movement where
  productId : String
  orderId : String
  status : String
deriving DecidableEq, Repr

/-- Store of the TCC inventory service. -/
structure InvState where
  products : List (String × Product)
  movements : List Movement
deriving DecidableEq, Repr

/-- Embedding of `GetProductForUpdate` (row lock then select). -/
def getProductForUpdate (s : InvState) (pid : String) : Option Product :=
  Bench.lookupA s.products pid

/-- Embedding of `GetInventoryMovementByOrderIDAndStatus`. -/
def movementExists (s : InvState) (oid status : String) : Bool :=
  s.movements.any fun m => m.orderId = oid && m.status = status

/-- Embedding of `GetInventoryMovementStatusByOrderID`
(`ORDER BY created_at DESC LIMIT 1`; newest row is first in the list). -/
def movementStatus (s : InvState) (oid : String) : Option String :=
  (s.movements.find? fun m => m.orderId = oid).map Movement.status

/-- Embedding of repository `TryReserveStock`: decrement `stock_available`
of the product row and insert a `pending` movement. -/
def tryReserveStock (s : InvState) (pid oid : String) : InvState :=
  { products := Bench.adjustA s.products pid fun p =>
      { p with stockAvailable := p.stockAvailable - 1 }
    movements := ⟨pid, oid, "pending"⟩ :: s.movements }

/-- Embedding of repository `ConfirmReserveStock`: decrement `current_stock`
and move the `pending` movement of the order to `completed`.  This is the
statement-level view of the SQL only; the schema CHECK constraints PostgreSQL
enforces on the UPDATE are embedded in `confirmReserveStockDb` below. -/
def confirmReserveStock (s : InvState) (pid oid : String) : InvState :=
  { products := Bench.adjustA s.products pid fun p =>
      { p with currentStock := p.currentStock - 1 }
    movements := s.movements.map fun m =>
      if m.orderId = oid ∧ m.status = "pending" then { m with status := "completed" } else m }

/-- Embedding of repository `CancelReserveStock`: increment `stock_available`
back and move the `pending` movement of the order to `rejected`. -/
def cancelReserveStock (s : InvState) (pid oid : String) : InvState :=
  { products := Bench.adjustA s.products pid fun p =>
      { p with stockAvailable := p.stockAvailable + 1 }
    movements := s.movements.map fun m =>
      if m.orderId = oid ∧ m.status = "pending" then { m with status := "rejected" } else m }

/-- Embedding of use-case `TryDecreaseStock` (TCC TRY).  Mirrors the Go order
of checks: row lock, stock-availability check, then the pending-row
idempotency check, then the reservation. -/
def tryDecreaseStock (s : InvState) (pid oid : String) : Except String InvState :=
  match getProductForUpdate s pid with
  | none => .error ("product not found: " ++ pid)
  | some p =>
    if p.stockAvailable < 1 then .error "insufficient stock"
    else if movementExists s oid "pending" then .ok s
    else .ok (tryReserveStock s pid oid)

/-- Embedding of use-case `ConfirmDecreaseStock` (TCC CONFIRM). -/
def confirmDecreaseStock (s : InvState) (pid oid : String) : Except String InvState :=
  match getProductForUpdate s pid with
  | none => .error ("product not found: " ++ pid)
  | some _ =>
    if movementExists s oid "completed" then .ok s
    else .ok (confirmReserveStock s pid oid)

/-- Embedding of use-case `CancelDecreaseStock` (TCC CANCEL). -/
def cancelDecreaseStock (s : InvState) (pid oid : String) : Except String InvState :=
  match getProductForUpdate s pid with
  | none => .error ("product not found: " ++ pid)
  | some _ =>
    match movementStatus s oid with
    | none => .ok s
    | some st =>
      if st = "rejected" then .ok s
      else if st = "completed" then .error "invalid status to cancel"
      else .ok (cancelReserveStock s pid oid)

/-- HTTP status derived by the TCC inventory handlers (`HandleTryDecreaseStock`
and friends): 200 on success, 500 on every use-case error. -/
def phaseStatus (r : Except String InvState) : Nat :=
  match r with
  | .ok _ => 200
  | .error _ => 500

end Bench.TCCInv

namespace Bench.TCCPay

/-- Row of `wallets` in the TCC payment service
(`current_amount`, `available_amount`). -/
structure Wallet where
  currentAmount : Int
  availableAmount : Int
deriving DecidableEq, Repr

/-- Row of `payment_transactions` in the TCC payment service
(`transaction_type` is always the literal `debit` and is dropped). -/
structure PaymentTransaction where
  userId : String
  orderId : String
  amount : Int
  status : String
deriving DecidableEq, Repr

/-- Store of the TCC payment service. -/
structure PayState where
  wallets : List (String × Wallet)
  transactions : List PaymentTransaction
deriving DecidableEq, Repr

/-- Embedding of `GetWalletForUpdate`. -/
def getWalletForUpdate (s : PayState) (uid : String) : Option Wallet :=
  Bench.lookupA s.wallets uid

/-- Embedding of `GetPaymentTransactionByOrderIDAndStatus`. -/
def transactionExists (s : PayState) (oid status : String) : Bool :=
  s.transactions.any fun t => t.orderId = oid && t.status = status

/-- Embedding of `GetPaymentTransactionStatusByOrderID`. -/
def transactionStatus (s : PayState) (oid : String) : Option String :=
  (s.transactions.find? fun t => t.orderId = oid).map PaymentTransaction.status

/-- Embedding of repository `TryReserveBalance`. -/
def tryReserveBalance (s : PayState) (uid oid : String) (amount : Int) : PayState :=
  { wallets := Bench.adjustA s.wallets uid fun w =>
      { w with availableAmount := w.availableAmount - amount }
    transactions := ⟨uid, oid, amount, "pending"⟩ :: s.transactions }

/-- Embedding of repository `ConfirmDebit`. -/
def confirmDebit (s : PayState) (uid oid : String) (amount : Int) : PayState :=
  { wallets := Bench.adjustA s.wallets uid fun w =>
      { w with currentAmount := w.currentAmount - amount }
    transactions := s.transactions.map fun t =>
      if t.orderId = oid ∧ t.status = "pending" then { t with status := "completed" } else t }

/-- Embedding of repository `CancelReserveBalance`. -/
def cancelReserveBalance (s : PayState) (uid oid : String) (amount : Int) : PayState :=
  { wallets := Bench.adjustA s.wallets uid fun w =>
      { w with availableAmount := w.availableAmount + amount }
    transactions := s.transactions.map fun t =>
      if t.orderId = oid ∧ t.status = "pending" then { t with status := "rejected" } else t }

/-- Embedding of use-case `TryDebitWallet` (TCC TRY).  Mirrors the Go order of
checks: amount validation, row lock, pending-row idempotency check, then the
available-balance check, then the reservation. -/
def tryDebitWallet (s : PayState) (uid oid : String) (amount : Int) :
    Except String PayState :=
  if amount ≤ 0 then .error "amount must be greater than 0"
  else
    match getWalletForUpdate s uid with
    | none => .error ("user not found: " ++ uid)
    | some w =>
      if transactionExists s oid "pending" then .ok s
      else if w.availableAmount < amount then .error "insufficient balance"
      else .ok (tryReserveBalance s uid oid amount)

/-- Embedding of use-case `ConfirmDebitWallet` (TCC CONFIRM). -/
def confirmDebitWallet (s : PayState) (uid oid : String) (amount : Int) :
    Except String PayState :=
  match getWalletForUpdate s uid with
  | none => .error ("user not found: " ++ uid)
  | some _ =>
    if transactionExists s oid "completed" then .ok s
    else .ok (confirmDebit s uid oid amount)

/-- Embedding of use-case `CancelDebitWallet` (TCC CANCEL). -/
def cancelDebitWallet (s : PayState) (uid oid : String) (amount : Int) :
    Except String PayState :=
  match getWalletForUpdate s uid with
  | none => .error ("user not found: " ++ uid)
  | some _ =>
    match transactionStatus s oid with
    | none => .ok s
    | some st =>
      if st = "rejected" then .ok s
      else if st = "completed" then
        .error ("cannot cancel completed transaction for order " ++ oid)
      else .ok (cancelReserveBalance s uid oid amount)

/-- HTTP status derived by the TCC payment handlers: 200 on success, 500 on
every use-case error. -/
def phaseStatus (r : Except String PayState) : Nat :=
  match r with
  | .ok _ => 200
  | .error _ => 500

end Bench.TCCPay

namespace Bench.SagaInv

/-- Row of `inventory_movements` in the Saga inventory service. -/
structure Movement where
  inventoryId : String
  orderId : String
  movementType : String
deriving DecidableEq, Repr

/-- Store of the Saga inventory service: `products_inventory` keyed by id with
its `current_stock`, plus the movement ledger. -/
structure InvState where
  products : List (String × Int)
  movements : List Movement
deriving DecidableEq, Repr

/-- Embedding of `GetProductForUpdate` (Saga variant). -/
def getProductForUpdate (s : InvState) (pid : String) : Option Int :=
  Bench.lookupA s.products pid

/-- Embedding of `GetMovementByOrderIDAndType`. -/
def movementExists (s : InvState) (oid mtype : String) : Bool :=
  s.movements.any fun m => m.orderId = oid && m.movementType = mtype

/-- Embedding of repository `DecreaseStock`: decrement `current_stock` and
insert a `decreased` movement row. -/
def decreaseStockRepo (s : InvState) (pid oid : String) : InvState :=
  { products := Bench.adjustA s.products pid fun c => c - 1
    movements := ⟨pid, oid, "decreased"⟩ :: s.movements }

/-- Embedding of repository `IncreaseStock`: increment `current_stock` and
insert an `increased` movement row. -/
def increaseStockRepo (s : InvState) (pid oid : String) : InvState :=
  { products := Bench.adjustA s.products pid fun c => c + 1
    movements := ⟨pid, oid, "increased"⟩ :: s.movements }

/-- Embedding of use-case `DecreaseStock` (Saga forward step): row lock,
idempotency check on the `decreased` row, business stock check, then the
decrement and ledger insert. -/
def decreaseStock (s : InvState) (pid oid : String) : Except String InvState :=
  match getProductForUpdate s pid with
  | none => .error ("failed to get product with lock: " ++ pid)
  | some stock =>
    if movementExists s oid "decreased" then .ok s
    else if stock < 1 then .error ("insufficient stock for product " ++ pid)
    else .ok (decreaseStockRepo s pid oid)

/-- Embedding of use-case `CompensateStock` (Saga compensation): row lock,
idempotency check on the `increased` row, then an unconditional increment and
ledger insert (no balance check). -/
def compensateStock (s : InvState) (pid oid : String) : Except String InvState :=
  match getProductForUpdate s pid with
  | none => .error ("failed to get product with lock: " ++ pid)
  | some _ =>
    if movementExists s oid "increased" then .ok s
    else .ok (increaseStockRepo s pid oid)

/-- HTTP status derived by the Saga inventory `DecreaseStock` handler: 200 on
success; on error 400 when the message contains `product not found` or
`insufficient stock`, else 500. -/
def decreaseStatus (r : Except String InvState) : Nat :=
  match r with
  | .ok _ => 200
  | .error e =>
    if Bench.containsAny e ["product not found", "insufficient stock"] then 400 else 500

/-- HTTP status derived by the Saga inventory `CompensateStock` handler: 200
on success; on error 409 when the message contains `version conflict` or
`max retries exceeded`, else 500. -/
def compensateStatus (r : Except String InvState) : Nat :=
  match r with
  | .ok _ => 200
  | .error e =>
    if Bench.containsAny e ["version conflict", "max retries exceeded"] then 409 else 500

end Bench.SagaInv

namespace Bench.SagaPay

/-- Row of `user_payments` in the Saga payment service (the wallet id column
is keyed here by the user id owning the wallet). -/
structure UserPayment where
  walletUserId : String
  orderId : String
  amount : Int
  paymentType : String
deriving DecidableEq, Repr

/-- Store of the Saga payment service: `wallets` keyed by user id with the
`current_amount`, plus the payment ledger. -/
structure PayState where
  wallets : List (String × Int)
  payments : List UserPayment
deriving DecidableEq, Repr

/-- Embedding of `GetWalletForUpdate` (Saga variant). -/
def getWalletForUpdate (s : PayState) (uid : String) : Option Int :=
  Bench.lookupA s.wallets uid

/-- Embedding of `GetPaymentByOrderIDAndType`. -/
def paymentExists (s : PayState) (oid ptype : String) : Bool :=
  s.payments.any fun p => p.orderId = oid && p.paymentType = ptype

/-- Embedding of repository `DebitWallet`: decrement `current_amount` and
insert a `debit` payment row. -/
def debitWalletRepo (s : PayState) (uid oid : String) (amount : Int) : PayState :=
  { wallets := Bench.adjustA s.wallets uid fun c => c - amount
    payments := ⟨uid, oid, amount, "debit"⟩ :: s.payments }

/-- Embedding of repository `CreditWallet`: increment `current_amount` and
insert a `credit` payment row. -/
def creditWalletRepo (s : PayState) (uid oid : String) (amount : Int) : PayState :=
  { wallets := Bench.adjustA s.wallets uid fun c => c + amount
    payments := ⟨uid, oid, amount, "credit"⟩ :: s.payments }

/-- Embedding of use-case `DebitPayment` (Saga forward step): row lock,
idempotency check on the `debit` row, the sufficient-funds check, then the
debit and ledger insert. -/
def debitPayment (s : PayState) (uid oid : String) (amount : Int) :
    Except String PayState :=
  match getWalletForUpdate s uid with
  | none => .error ("failed to get wallet with lock: " ++ uid)
  | some cur =>
    if paymentExists s oid "debit" then .ok s
    else if cur < amount then .error "insufficient funds"
    else .ok (debitWalletRepo s uid oid amount)

/-- Embedding of use-case `CompensatePayment` (Saga compensation): row lock,
idempotency check on the `credit` row, then an unconditional credit and
ledger insert (no balance check). -/
def compensatePayment (s : PayState) (uid oid : String) (amount : Int) :
    Except String PayState :=
  match getWalletForUpdate s uid with
  | none => .error ("failed to get wallet with lock: " ++ uid)
  | some _ =>
    if paymentExists s oid "credit" then .ok s
    else .ok (creditWalletRepo s uid oid amount)

/-- HTTP status derived by the Saga payment `DebitPayment` handler: 200 on
success; on error 400 when the message contains `wallet not found` or
`insufficient funds`, else 500. -/
def debitStatus (r : Except String PayState) : Nat :=
  match r with
  | .ok _ => 200
  | .error e =>
    if Bench.containsAny e ["wallet not found", "insufficient funds"] then 400 else 500

/-- HTTP status derived by the Saga payment `CompensatePayment` handler: 200
on success; on error 409 when the message contains `version conflict` or
`max retries exceeded`, else 500. -/
def compensateStatus (r : Except String PayState) : Nat :=
  match r with
  | .ok _ => 200
  | .error e =>
    if Bench.containsAny e ["version conflict", "max retries exceeded"] then 409 else 500

end Bench.SagaPay

namespace Bench.Orders

/-- Order row shared by the Saga and TCC orders services (timestamps
dropped; the TCC `total_price` column corresponds to `amount`). -/
structure Order where
  userId : String
  productId : String
  amount : Int
  status : String
deriving DecidableEq, Repr

/-- Embedding of the entity constructor `NewOrder`: a fresh order starts in
status `pending`. -/
def newOrder (uid pid : String) (amount : Int) : Order :=
  ⟨uid, pid, amount, "pending"⟩

/-- Embedding of the entity method `Order.Fail`: only a `pending` order may
be marked `rejected`. -/
def orderFail (o : Order) : Except String Order :=
  if o.status ≠ "pending" then .error "only pending orders can be marked as failed"
  else .ok { o with status := "rejected" }

/-- Orders table keyed by order id. -/
def OrdersTable : Type := List (String × Order)

/-- Embedding of the Saga repository `UpdateOrderStatus`:
`UPDATE orders SET status = $1 WHERE id = $2 AND status != $1`
(the only guard is that the stored status differs from the target). -/
def updateOrderStatusSaga (t : OrdersTable) (oid st : String) : OrdersTable :=
  Bench.adjustA t oid fun o => if o.status ≠ st then { o with status := st } else o

/-- Embedding of the TCC repository `UpdateOrderStatus`:
`UPDATE orders SET status = $1 WHERE order_id = $2` (no guard at all). -/
def updateOrderStatusTCC (t : OrdersTable) (oid st : String) : OrdersTable :=
  Bench.adjustA t oid fun o => { o with status := st }

/-- Embedding of the Saga use-case `CompleteOrder`. -/
def completeOrder (t : OrdersTable) (oid : String) : OrdersTable :=
  updateOrderStatusSaga t oid "completed"

/-- Embedding of the Saga use-case `CancelOrder` (compensation). -/
def cancelOrder (t : OrdersTable) (oid : String) : OrdersTable :=
  updateOrderStatusSaga t oid "rejected"

/-- Embedding of the TCC use-case `ConfirmCreateOrder`. -/
def confirmCreateOrder (t : OrdersTable) (oid : String) : OrdersTable :=
  updateOrderStatusTCC t oid "completed"

/-- Embedding of the TCC use-case `CancelCreateOrder`. -/
def cancelCreateOrder (t : OrdersTable) (oid : String) : OrdersTable :=
  updateOrderStatusTCC t oid "cancelled"

/-- Status of an order in the table. -/
def statusOf (t : OrdersTable) (oid : String) : Option String :=
  (Bench.lookupA t oid).map Order.status

end Bench.Orders

namespace Bench.XA

/-- Store of the 2PC/XA inventory service: `products_inventory` keyed by id
with `current_stock`, plus `inventory_movements` rows `(product, order)`. -/
structure InvState where
  products : List (String × Int)
  movements : List (String × String)
deriving DecidableEq, Repr

/-- Embedding of `DecreaseStockXA`:
`UPDATE products_inventory SET current_stock = current_stock - 1
 WHERE product_id = $1 AND current_stock >= 1`; when zero rows are affected
the branch returns an error and no movement row is inserted, otherwise a
`decrease` movement is inserted. -/
def decreaseStockXA (s : InvState) (pid oid : String) : Except String InvState :=
  match Bench.lookupA s.products pid with
  | some c =>
    if c ≥ 1 then
      .ok { products := Bench.adjustA s.products pid fun x => x - 1
            movements := (pid, oid) :: s.movements }
    else .error ("insufficient stock or product not found: " ++ pid)
  | none => .error ("insufficient stock or product not found: " ++ pid)

/-- Store of the 2PC/XA payment service: `wallets` keyed by user id with
`current_amount`, plus `payment_transactions` rows `(user, order, amount)`. -/
structure PayState where
  wallets : List (String × Int)
  transactions : List (String × String × Int)
deriving DecidableEq, Repr

/-- Embedding of `DebitBalanceXA`:
`UPDATE wallets SET current_amount = current_amount - $1
 WHERE user_id = $2 AND current_amount >= $1`; when zero rows are affected
the branch returns an error and no transaction row is inserted, otherwise a
`debit` transaction is inserted. -/
def debitBalanceXA (s : PayState) (uid oid : String) (amount : Int) :
    Except String PayState :=
  match Bench.lookupA s.wallets uid with
  | some c =>
    if c ≥ amount then
      .ok { wallets := Bench.adjustA s.wallets uid fun x => x - amount
            transactions := (uid, oid, amount) :: s.transactions }
    else .error ("insufficient balance or user not found: " ++ uid)
  | none => .error ("insufficient balance or user not found: " ++ uid)

end Bench.XA

namespace Bench.Http

/-- Response of a caller-facing orchestrator endpoint: HTTP status code and
the JSON body fields the handler sets. -/
structure HttpResponse where
  status : Nat
  body : List (String × String)
deriving DecidableEq, Repr

/-- Body field access. -/
def bodyField (r : HttpResponse) (k : String) : Option String :=
  Bench.lookupA r.body k

/-- Success response of the Saga orchestrator handler `CreateOrderSaga`
(`POST /api/orders`, Saga orders service): `200` with `order_id`,
`saga_gid` and `message`. -/
def sagaCreateOrderResponse (orderID gid : String) : HttpResponse :=
  { status := 200
    body := [("order_id", orderID), ("saga_gid", gid),
             ("message", "Order SAGA initiated successfully")] }

/-- Success response of the TCC orchestrator handler `HandleCreateOrder`
(`POST /api/orders`, TCC orders service): `202 Accepted` with `order_id`,
`trace_id`, `status: processing` and `message`. -/
def tccCreateOrderResponse (orderID traceID : String) : HttpResponse :=
  { status := 202
    body := [("order_id", orderID), ("trace_id", traceID), ("status", "processing"),
             ("message", "Order is being processed asynchronously via TCC")] }

/-- Success response of the 2PC/XA orchestrator handler `HandleCreateOrder`
(`POST /api/orders`, 2PC orders service): `200 OK` with `order_id`,
`trace_id`, `status: completed` and `message`, sent only after
`XaGlobalTransaction2` has returned (the global outcome is known). -/
def xaCreateOrderResponse (orderID traceID : String) : HttpResponse :=
  { status := 200
    body := [("order_id", orderID), ("trace_id", traceID), ("status", "completed"),
             ("message", "Order created successfully via 2PC/XA")] }

end Bench.Http

namespace Bench.SagaInv

/-- Ledger rows of a given order in the Saga inventory store. -/
def movementsFor (s : InvState) (oid : String) : List Movement :=
  s.movements.filter fun m => m.orderId = oid

end Bench.SagaInv

namespace Bench.SagaPay

/-- Ledger rows of a given order in the Saga payment store. -/
def paymentsFor (s : PayState) (oid : String) : List UserPayment :=
  s.payments.filter fun p => p.orderId = oid

end Bench.SagaPay

namespace Bench.TCCInv

/-- Reservation invariant of the TCC inventory store (spec §3):
`stock_available ≤ current_stock` on every product row. -/
def reservationInvariant (s : InvState) : Prop :=
  ∀ kp ∈ s.products, kp.2.stockAvailable ≤ kp.2.currentStock

instance (s : InvState) : Decidable (reservationInvariant s) := by
  unfold reservationInvariant
  infer_instance

end Bench.TCCInv

namespace Bench.TCCPay

/-- Reservation invariant of the TCC payment store (spec §3):
`available_amount ≤ current_amount` on every wallet row. -/
def reservationInvariant (s : PayState) : Prop :=
  ∀ kw ∈ s.wallets, kw.2.availableAmount ≤ kw.2.currentAmount

instance (s : PayState) : Decidable (reservationInvariant s) := by
  unfold reservationInvariant
  infer_instance

end Bench.TCCPay

namespace Bench

/-- Per-row admissibility of an `UPDATE ... WHERE key = $1`: true when every
row the statement would touch still satisfies the table's CHECK constraints
after the update.  PostgreSQL aborts the statement (and `Exec` returns an
error) as soon as one updated row violates a CHECK constraint. -/
def rowsOk {α : Type} (l : List (String × α)) (key : String) (f : α → α)
    (ok : α → Bool) : Bool :=
  l.all fun kv => if kv.1 = key then ok (f kv.2) else true

end Bench

namespace Bench.TCCInv

/-- CHECK constraints of `products_inventory` in the TCC inventory schema:
`current_stock >= 0`, `stock_available >= 0` and
`check_available_lte_current` (`stock_available <= current_stock`). -/
def productRowCheck (p : Product) : Bool :=
  (0 ≤ p.currentStock) && (0 ≤ p.stockAvailable)
    && (p.stockAvailable ≤ p.currentStock)

/-- UNIQUE `(order_id)` probe on `inventory_movements` (constraint
`unique_order` of the TCC inventory schema). -/
def movementRowExists (s : InvState) (oid : String) : Bool :=
  s.movements.any fun m => m.orderId = oid

/-- Database-level `TryReserveStock`: the `stock_available - 1` UPDATE fails
when an updated row would violate a CHECK constraint, and the movement
INSERT fails on the UNIQUE `(order_id)` constraint; either error is returned
to the use-case, which rolls back. -/
def tryReserveStockDb (s : InvState) (pid oid : String) : Except String InvState :=
  if Bench.rowsOk s.products pid
      (fun p => { p with stockAvailable := p.stockAvailable - 1 }) productRowCheck then
    if movementRowExists s oid then
      .error "failed to create movement: duplicate key violates unique constraint"
    else
      .ok { products := Bench.adjustA s.products pid fun p =>
              { p with stockAvailable := p.stockAvailable - 1 }
            movements := ⟨pid, oid, "pending"⟩ :: s.movements }
  else .error "failed to update stock_available: new row violates check constraint"

/-- Database-level `ConfirmReserveStock`: the `current_stock - 1` UPDATE
fails when an updated row would violate a CHECK constraint (in particular
`check_available_lte_current`); the pending→completed status UPDATE is
constraint-free. -/
def confirmReserveStockDb (s : InvState) (pid oid : String) : Except String InvState :=
  if Bench.rowsOk s.products pid
      (fun p => { p with currentStock := p.currentStock - 1 }) productRowCheck then
    .ok { products := Bench.adjustA s.products pid fun p =>
            { p with currentStock := p.currentStock - 1 }
          movements := s.movements.map fun m =>
            if m.orderId = oid ∧ m.status = "pending"
            then { m with status := "completed" } else m }
  else .error "failed to update current_stock: new row violates check constraint"

/-- Database-level `CancelReserveStock`: the `stock_available + 1` UPDATE
fails when an updated row would violate a CHECK constraint. -/
def cancelReserveStockDb (s : InvState) (pid oid : String) : Except String InvState :=
  if Bench.rowsOk s.products pid
      (fun p => { p with stockAvailable := p.stockAvailable + 1 }) productRowCheck then
    .ok { products := Bench.adjustA s.products pid fun p =>
            { p with stockAvailable := p.stockAvailable + 1 }
          movements := s.movements.map fun m =>
            if m.orderId = oid ∧ m.status = "pending"
            then { m with status := "rejected" } else m }
  else .error "failed to update stock_available: new row violates check constraint"

/-- Database-level use-case `TryDecreaseStock`: the control flow of
`tryDecreaseStock` with the repository call embedded together with the
schema constraints. -/
def tryDecreaseStockDb (s : InvState) (pid oid : String) : Except String InvState :=
  match getProductForUpdate s pid with
  | none => .error ("product not found: " ++ pid)
  | some p =>
    if p.stockAvailable < 1 then .error "insufficient stock"
    else if movementExists s oid "pending" then .ok s
    else tryReserveStockDb s pid oid

/-- Database-level use-case `ConfirmDecreaseStock`. -/
def confirmDecreaseStockDb (s : InvState) (pid oid : String) : Except String InvState :=
  match getProductForUpdate s pid with
  | none => .error ("product not found: " ++ pid)
  | some _ =>
    if movementExists s oid "completed" then .ok s
    else confirmReserveStockDb s pid oid

/-- Database-level use-case `CancelDecreaseStock`. -/
def cancelDecreaseStockDb (s : InvState) (pid oid : String) : Except String InvState :=
  match getProductForUpdate s pid with
  | none => .error ("product not found: " ++ pid)
  | some _ =>
    match movementStatus s oid with
    | none => .ok s
    | some st =>
      if st = "rejected" then .ok s
      else if st = "completed" then .error "invalid status to cancel"
      else cancelReserveStockDb s pid oid

end Bench.TCCInv

namespace Bench.TCCPay

/-- CHECK constraints of `wallets` in the TCC payments schema:
`current_amount >= 0`, `available_amount >= 0` and
`check_available_lte_current` (`available_amount <= current_amount`). -/
def walletRowCheck (w : Wallet) : Bool :=
  (0 ≤ w.currentAmount) && (0 ≤ w.availableAmount)
    && (w.availableAmount ≤ w.currentAmount)

/-- UNIQUE `(order_id)` probe on `payment_transactions` (constraint
`unique_order` of the TCC payments schema). -/
def transactionRowExists (s : PayState) (oid : String) : Bool :=
  s.transactions.any fun t => t.orderId = oid

/-- Database-level `TryReserveBalance` (UPDATE guarded by the wallet CHECK
constraints, INSERT guarded by UNIQUE `(order_id)`). -/
def tryReserveBalanceDb (s : PayState) (uid oid : String) (amount : Int) :
    Except String PayState :=
  if Bench.rowsOk s.wallets uid
      (fun w => { w with availableAmount := w.availableAmount - amount })
      walletRowCheck then
    if transactionRowExists s oid then
      .error "failed to create transaction: duplicate key violates unique constraint"
    else
      .ok { wallets := Bench.adjustA s.wallets uid fun w =>
              { w with availableAmount := w.availableAmount - amount }
            transactions := ⟨uid, oid, amount, "pending"⟩ :: s.transactions }
  else .error "failed to update available_amount: new row violates check constraint"

/-- Database-level `ConfirmDebit` (UPDATE guarded by the wallet CHECK
constraints). -/
def confirmDebitDb (s : PayState) (uid oid : String) (amount : Int) :
    Except String PayState :=
  if Bench.rowsOk s.wallets uid
      (fun w => { w with currentAmount := w.currentAmount - amount })
      walletRowCheck then
    .ok { wallets := Bench.adjustA s.wallets uid fun w =>
            { w with currentAmount := w.currentAmount - amount }
          transactions := s.transactions.map fun t =>
            if t.orderId = oid ∧ t.status = "pending"
            then { t with status := "completed" } else t }
  else .error "failed to update current_amount: new row violates check constraint"

/-- Database-level `CancelReserveBalance` (UPDATE guarded by the wallet
CHECK constraints). -/
def cancelReserveBalanceDb (s : PayState) (uid oid : String) (amount : Int) :
    Except String PayState :=
  if Bench.rowsOk s.wallets uid
      (fun w => { w with availableAmount := w.availableAmount + amount })
      walletRowCheck then
    .ok { wallets := Bench.adjustA s.wallets uid fun w =>
            { w with availableAmount := w.availableAmount + amount }
          transactions := s.transactions.map fun t =>
            if t.orderId = oid ∧ t.status = "pending"
            then { t with status := "rejected" } else t }
  else .error "failed to update available_amount: new row violates check constraint"

/-- Database-level use-case `TryDebitWallet`. -/
def tryDebitWalletDb (s : PayState) (uid oid : String) (amount : Int) :
    Except String PayState :=
  if amount ≤ 0 then .error "amount must be greater than 0"
  else
    match getWalletForUpdate s uid with
    | none => .error ("user not found: " ++ uid)
    | some w =>
      if transactionExists s oid "pending" then .ok s
      else if w.availableAmount < amount then .error "insufficient balance"
      else tryReserveBalanceDb s uid oid amount

/-- Database-level use-case `ConfirmDebitWallet`. -/
def confirmDebitWalletDb (s : PayState) (uid oid : String) (amount : Int) :
    Except String PayState :=
  match getWalletForUpdate s uid with
  | none => .error ("user not found: " ++ uid)
  | some _ =>
    if transactionExists s oid "completed" then .ok s
    else confirmDebitDb s uid oid amount

/-- Database-level use-case `CancelDebitWallet`. -/
def cancelDebitWalletDb (s : PayState) (uid oid : String) (amount : Int) :
    Except String PayState :=
  match getWalletForUpdate s uid with
  | none => .error ("user not found: " ++ uid)
  | some _ =>
    match transactionStatus s oid with
    | none => .ok s
    | some st =>
      if st = "rejected" then .ok s
      else if st = "completed" then
        .error ("cannot cancel completed transaction for order " ++ oid)
      else cancelReserveBalanceDb s uid oid amount

end Bench.TCCPay

namespace Bench

theorem lookupA_adjustA_self {α : Type} (l : List (String × α)) (key : String)
    (f : α → α) : lookupA (adjustA l key f) key = (lookupA l key).map f := by
  induction l with
  | nil => simp [lookupA, adjustA]
  | cons kv rest ih =>
    obtain ⟨k, v⟩ := kv
    by_cases h : k = key
    · subst h
      simp only [adjustA, List.map_cons, eq_self_iff_true, if_true]
      simp [lookupA]
    · simp only [adjustA, List.map_cons]
      rw [if_neg h]
      simpa [lookupA, h, adjustA] using ih

theorem lookupA_adjustA_other {α : Type} (l : List (String × α)) (key other : String)
    (f : α → α) (h : other ≠ key) :
    lookupA (adjustA l key f) other = lookupA l other := by
  induction l with
  | nil => simp [lookupA, adjustA]
  | cons kv rest ih =>
    obtain ⟨k, v⟩ := kv
    simp only [adjustA, List.map_cons]
    by_cases hk : k = key
    · subst hk
      have hko : k ≠ other := fun hco => h (hco ▸ rfl)
      rw [if_pos rfl]
      simpa [lookupA, hko, adjustA] using ih
    · rw [if_neg hk]
      by_cases ho : k = other
      · subst ho
        simp [lookupA, adjustA]
      · simpa [lookupA, ho, adjustA] using ih

theorem matchesAt_of_append (sub pre r : List Char) (h : matchesAt sub pre = true) :
    matchesAt sub (pre ++ r) = true := by
  induction sub generalizing pre with
  | nil => simp [matchesAt]
  | cons a as ih =>
    cases pre with
    | nil => simp [matchesAt] at h
    | cons b bs =>
      simp only [matchesAt, Bool.and_eq_true] at h
      simp only [List.cons_append, matchesAt, Bool.and_eq_true]
      exact ⟨h.1, ih bs h.2⟩

theorem scanFor_of_head (sub l : List Char) (h : matchesAt sub l = true) :
    scanFor sub l = true := by
  cases l with
  | nil => simpa [scanFor] using h
  | cons c cs => simp [scanFor, h]

end Bench

namespace Bench

theorem rowsOk_all {α : Type} {l : List (String × α)} {key : String} {f : α → α}
    {ok : α → Bool} (P : α → Prop)
    (hinv : ∀ kv ∈ l, P kv.2) (hchk : ∀ a : α, ok a = true → P a)
    (hro : rowsOk l key f ok = true) :
    ∀ kv ∈ adjustA l key f, P kv.2 := by
  intro kv hkv
  unfold adjustA at hkv
  rcases List.mem_map.mp hkv with ⟨kv0, hkv0, heq⟩
  unfold rowsOk at hro
  rw [List.all_eq_true] at hro
  have h0 : (if kv0.1 = key then ok (f kv0.2) else true) = true := hro kv0 hkv0
  by_cases hk : kv0.1 = key
  · rw [if_pos hk] at heq h0
    rw [← heq]
    exact hchk (f kv0.2) h0
  · rw [if_neg hk] at heq
    rw [← heq]
    exact hinv kv0 hkv0

end Bench

namespace Bench.TCCInv

theorem productRowCheck_le (p : Product) (h : productRowCheck p = true) :
    p.stockAvailable ≤ p.currentStock := by
  unfold productRowCheck at h
  simp only [Bool.and_eq_true, decide_eq_true_eq] at h
  exact h.2

theorem tryReserveStockDb_preserves (s : InvState) (pid oid : String) (s' : InvState)
    (hinv : reservationInvariant s) (h : tryReserveStockDb s pid oid = .ok s') :
    reservationInvariant s' := by
  unfold tryReserveStockDb at h
  split at h
  · split at h
    · simp at h
    · have hs := Except.ok.inj h
      subst hs
      have hinv2 : ∀ kv ∈ s.products, kv.2.stockAvailable ≤ kv.2.currentStock := hinv
      intro kp hkp
      exact Bench.rowsOk_all (fun p => p.stockAvailable ≤ p.currentStock) hinv2
        productRowCheck_le (by assumption) kp hkp
  · simp at h

theorem confirmReserveStockDb_preserves (s : InvState) (pid oid : String)
    (s' : InvState) (hinv : reservationInvariant s)
    (h : confirmReserveStockDb s pid oid = .ok s') :
    reservationInvariant s' := by
  unfold confirmReserveStockDb at h
  split at h
  · have hs := Except.ok.inj h
    subst hs
    have hinv2 : ∀ kv ∈ s.products, kv.2.stockAvailable ≤ kv.2.currentStock := hinv
    intro kp hkp
    exact Bench.rowsOk_all (fun p => p.stockAvailable ≤ p.currentStock) hinv2
      productRowCheck_le (by assumption) kp hkp
  · simp at h

theorem cancelReserveStockDb_preserves (s : InvState) (pid oid : String)
    (s' : InvState) (hinv : reservationInvariant s)
    (h : cancelReserveStockDb s pid oid = .ok s') :
    reservationInvariant s' := by
  unfold cancelReserveStockDb at h
  split at h
  · have hs := Except.ok.inj h
    subst hs
    have hinv2 : ∀ kv ∈ s.products, kv.2.stockAvailable ≤ kv.2.currentStock := hinv
    intro kp hkp
    exact Bench.rowsOk_all (fun p => p.stockAvailable ≤ p.currentStock) hinv2
      productRowCheck_le (by assumption) kp hkp
  · simp at h

end Bench.TCCInv

namespace Bench.TCCPay

theorem walletRowCheck_le (w : Wallet) (h : walletRowCheck w = true) :
    w.availableAmount ≤ w.currentAmount := by
  unfold walletRowCheck at h
  simp only [Bool.and_eq_true, decide_eq_true_eq] at h
  exact h.2

theorem tryReserveBalanceDb_preserves (s : PayState) (uid oid : String) (a : Int)
    (s' : PayState) (hinv : reservationInvariant s)
    (h : tryReserveBalanceDb s uid oid a = .ok s') :
    reservationInvariant s' := by
  unfold tryReserveBalanceDb at h
  split at h
  · split at h
    · simp at h
    · have hs := Except.ok.inj h
      subst hs
      have hinv2 : ∀ kv ∈ s.wallets, kv.2.availableAmount ≤ kv.2.currentAmount := hinv
      intro kw hkw
      exact Bench.rowsOk_all (fun w => w.availableAmount ≤ w.currentAmount) hinv2
        walletRowCheck_le (by assumption) kw hkw
  · simp at h

theorem confirmDebitDb_preserves (s : PayState) (uid oid : String) (a : Int)
    (s' : PayState) (hinv : reservationInvariant s)
    (h : confirmDebitDb s uid oid a = .ok s') :
    reservationInvariant s' := by
  unfold confirmDebitDb at h
  split at h
  · have hs := Except.ok.inj h
    subst hs
    have hinv2 : ∀ kv ∈ s.wallets, kv.2.availableAmount ≤ kv.2.currentAmount := hinv
    intro kw hkw
    exact Bench.rowsOk_all (fun w => w.availableAmount ≤ w.currentAmount) hinv2
      walletRowCheck_le (by assumption) kw hkw
  · simp at h

theorem cancelReserveBalanceDb_preserves (s : PayState) (uid oid : String) (a : Int)
    (s' : PayState) (hinv : reservationInvariant s)
    (h : cancelReserveBalanceDb s uid oid a = .ok s') :
    reservationInvariant s' := by
  unfold cancelReserveBalanceDb at h
  split at h
  · have hs := Except.ok.inj h
    subst hs
    have hinv2 : ∀ kv ∈ s.wallets, kv.2.availableAmount ≤ kv.2.currentAmount := hinv
    intro kw hkw
    exact Bench.rowsOk_all (fun w => w.availableAmount ≤ w.currentAmount) hinv2
      walletRowCheck_le (by assumption) kw hkw
  · simp at h

end Bench.TCCPay

/-- C1: every TCC participant phase, embedded at the database level together
with the schema CHECK constraints (`stock_available <= current_stock`,
`available_amount <= current_amount`, both columns non-negative) and the
UNIQUE `(order_id)` ledger constraint, preserves the reservation invariant:
a phase that commits leaves `available ≤ current` on every row, because
PostgreSQL rejects any UPDATE whose result would violate a CHECK constraint
and the use-case then rolls back.  In particular a Confirm with no prior Try
cannot leave `available > current`: at the store with `current_stock = 1`,
`stock_available = 1` and no ledger row, the `current_stock - 1` UPDATE
fails the `check_available_lte_current` constraint and Confirm errors
instead of committing. -/
theorem tccPhasesPreserveReservationInvariant :
    (∀ (s : Bench.TCCInv.InvState) (pid oid : String) (s' : Bench.TCCInv.InvState),
      Bench.TCCInv.reservationInvariant s →
      Bench.TCCInv.tryDecreaseStockDb s pid oid = .ok s' →
      Bench.TCCInv.reservationInvariant s') ∧
    (∀ (s : Bench.TCCInv.InvState) (pid oid : String) (s' : Bench.TCCInv.InvState),
      Bench.TCCInv.reservationInvariant s →
      Bench.TCCInv.confirmDecreaseStockDb s pid oid = .ok s' →
      Bench.TCCInv.reservationInvariant s') ∧
    (∀ (s : Bench.TCCInv.InvState) (pid oid : String) (s' : Bench.TCCInv.InvState),
      Bench.TCCInv.reservationInvariant s →
      Bench.TCCInv.cancelDecreaseStockDb s pid oid = .ok s' →
      Bench.TCCInv.reservationInvariant s') ∧
    (∀ (s : Bench.TCCPay.PayState) (uid oid : String) (a : Int)
        (s' : Bench.TCCPay.PayState),
      Bench.TCCPay.reservationInvariant s →
      Bench.TCCPay.tryDebitWalletDb s uid oid a = .ok s' →
      Bench.TCCPay.reservationInvariant s') ∧
    (∀ (s : Bench.TCCPay.PayState) (uid oid : String) (a : Int)
        (s' : Bench.TCCPay.PayState),
      Bench.TCCPay.reservationInvariant s →
      Bench.TCCPay.confirmDebitWalletDb s uid oid a = .ok s' →
      Bench.TCCPay.reservationInvariant s') ∧
    (∀ (s : Bench.TCCPay.PayState) (uid oid : String) (a : Int)
        (s' : Bench.TCCPay.PayState),
      Bench.TCCPay.reservationInvariant s →
      Bench.TCCPay.cancelDebitWalletDb s uid oid a = .ok s' →
      Bench.TCCPay.reservationInvariant s') ∧
    Bench.TCCInv.confirmDecreaseStockDb ⟨[("p1", ⟨1, 1⟩)], []⟩ "p1" "o1"
      = .error "failed to update current_stock: new row violates check constraint" := by
  refine ⟨?_, ?_, ?_, ?_, ?_, ?_, by rfl⟩
  · intro s pid oid s' hinv h
    unfold Bench.TCCInv.tryDecreaseStockDb at h
    split at h
    · simp at h
    · split at h
      · simp at h
      · split at h
        · exact (Except.ok.inj h) ▸ hinv
        · exact Bench.TCCInv.tryReserveStockDb_preserves s pid oid s' hinv h
  · intro s pid oid s' hinv h
    unfold Bench.TCCInv.confirmDecreaseStockDb at h
    split at h
    · simp at h
    · split at h
      · exact (Except.ok.inj h) ▸ hinv
      · exact Bench.TCCInv.confirmReserveStockDb_preserves s pid oid s' hinv h
  · intro s pid oid s' hinv h
    unfold Bench.TCCInv.cancelDecreaseStockDb at h
    split at h
    · simp at h
    · split at h
      · exact (Except.ok.inj h) ▸ hinv
      · split at h
        · exact (Except.ok.inj h) ▸ hinv
        · split at h
          · simp at h
          · exact Bench.TCCInv.cancelReserveStockDb_preserves s pid oid s' hinv h
  · intro s uid oid a s' hinv h
    unfold Bench.TCCPay.tryDebitWalletDb at h
    split at h
    · simp at h
    · split at h
      · simp at h
      · split at h
        · exact (Except.ok.inj h) ▸ hinv
        · split at h
          · simp at h
          · exact Bench.TCCPay.tryReserveBalanceDb_preserves s uid oid a s' hinv h
  · intro s uid oid a s' hinv h
    unfold Bench.TCCPay.confirmDebitWalletDb at h
    split at h
    · simp at h
    · split at h
      · exact (Except.ok.inj h) ▸ hinv
      · exact Bench.TCCPay.confirmDebitDb_preserves s uid oid a s' hinv h
  · intro s uid oid a s' hinv h
    unfold Bench.TCCPay.cancelDebitWalletDb at h
    split at h
    · simp at h
    · split at h
      · exact (Except.ok.inj h) ▸ hinv
      · split at h
        · exact (Except.ok.inj h) ▸ hinv
        · split at h
          · simp at h
          · exact Bench.TCCPay.cancelReserveBalanceDb_preserves s uid oid a s' hinv h

/-- Witness for `tccPhasesPreserveReservationInvariant`: each phase applied
at a concrete invariant-satisfying store on which it commits; the resulting
stores satisfy the invariant. -/
theorem tccPhasesPreserveReservationInvariant_witness :
    Bench.TCCInv.reservationInvariant
      ⟨[("p1", ⟨5, 2⟩)], [⟨"p1", "o1", "pending"⟩]⟩ ∧
    Bench.TCCInv.reservationInvariant
      ⟨[("p1", ⟨4, 3⟩)], [⟨"p1", "o1", "completed"⟩]⟩ ∧
    Bench.TCCInv.reservationInvariant
      ⟨[("p1", ⟨5, 4⟩)], [⟨"p1", "o1", "rejected"⟩]⟩ ∧
    Bench.TCCPay.reservationInvariant
      ⟨[("u1", ⟨100, 40⟩)], [⟨"u1", "o1", 10, "pending"⟩]⟩ ∧
    Bench.TCCPay.reservationInvariant
      ⟨[("u1", ⟨90, 40⟩)], [⟨"u1", "o1", 10, "completed"⟩]⟩ ∧
    Bench.TCCPay.reservationInvariant
      ⟨[("u1", ⟨100, 50⟩)], [⟨"u1", "o1", 10, "rejected"⟩]⟩ :=
  ⟨tccPhasesPreserveReservationInvariant.1 ⟨[("p1", ⟨5, 3⟩)], []⟩ "p1" "o1"
      ⟨[("p1", ⟨5, 2⟩)], [⟨"p1", "o1", "pending"⟩]⟩ (by decide) (by rfl),
   tccPhasesPreserveReservationInvariant.2.1
      ⟨[("p1", ⟨5, 3⟩)], [⟨"p1", "o1", "pending"⟩]⟩ "p1" "o1"
      ⟨[("p1", ⟨4, 3⟩)], [⟨"p1", "o1", "completed"⟩]⟩ (by decide) (by rfl),
   tccPhasesPreserveReservationInvariant.2.2.1
      ⟨[("p1", ⟨5, 3⟩)], [⟨"p1", "o1", "pending"⟩]⟩ "p1" "o1"
      ⟨[("p1", ⟨5, 4⟩)], [⟨"p1", "o1", "rejected"⟩]⟩ (by decide) (by rfl),
   tccPhasesPreserveReservationInvariant.2.2.2.1
      ⟨[("u1", ⟨100, 50⟩)], []⟩ "u1" "o1" 10
      ⟨[("u1", ⟨100, 40⟩)], [⟨"u1", "o1", 10, "pending"⟩]⟩ (by decide) (by rfl),
   tccPhasesPreserveReservationInvariant.2.2.2.2.1
      ⟨[("u1", ⟨100, 40⟩)], [⟨"u1", "o1", 10, "pending"⟩]⟩ "u1" "o1" 10
      ⟨[("u1", ⟨90, 40⟩)], [⟨"u1", "o1", 10, "completed"⟩]⟩ (by decide) (by rfl),
   tccPhasesPreserveReservationInvariant.2.2.2.2.2.1
      ⟨[("u1", ⟨100, 40⟩)], [⟨"u1", "o1", 10, "pending"⟩]⟩ "u1" "o1" 10
      ⟨[("u1", ⟨100, 50⟩)], [⟨"u1", "o1", 10, "rejected"⟩]⟩ (by decide) (by rfl)⟩

/-- C2 counterexample: a `completed` order is not terminal.  Invoking the TCC
`CancelCreateOrder` on an order already in status `completed` rewrites its
status to `cancelled`, contradicting the claim that once terminal no
subsequent call changes the status. -/
theorem completedOrderOverwrittenByCancel :
    Bench.Orders.statusOf [("o1", ⟨"u1", "p1", 5, "completed"⟩)] "o1" = some "completed" ∧
    Bench.Orders.statusOf
        (Bench.Orders.cancelCreateOrder [("o1", ⟨"u1", "p1", 5, "completed"⟩)] "o1") "o1"
      = some "cancelled" := by
  constructor <;> rfl

/-- C2 amended: terminality is not enforced by the repositories.  The TCC
`UpdateOrderStatus` overwrites the status of the addressed order
unconditionally and the Saga `UpdateOrderStatus` overwrites it whenever the
stored status differs from the target (its only guard), so a terminal order
is moved by a later Complete/Cancel/Confirm call; the `pending`-only guard
exists solely in the in-memory entity transition `Order.Fail`. -/
theorem orderStatusUpdatesUnguarded (t : Bench.Orders.OrdersTable) (oid st : String)
    (o : Bench.Orders.Order) (h : Bench.lookupA t oid = some o) :
    Bench.Orders.statusOf (Bench.Orders.updateOrderStatusTCC t oid st) oid = some st ∧
    Bench.Orders.statusOf (Bench.Orders.updateOrderStatusSaga t oid st) oid = some st ∧
    (Bench.Orders.orderFail o = .ok { o with status := "rejected" } ↔
      o.status = "pending") := by
  refine ⟨?_, ?_, ?_⟩
  · simp [Bench.Orders.statusOf, Bench.Orders.updateOrderStatusTCC,
      Bench.lookupA_adjustA_self, h]
  · by_cases hst : o.status = st
    · simp [Bench.Orders.statusOf, Bench.Orders.updateOrderStatusSaga,
        Bench.lookupA_adjustA_self, h, hst]
    · simp [Bench.Orders.statusOf, Bench.Orders.updateOrderStatusSaga,
        Bench.lookupA_adjustA_self, h, hst]
  · unfold Bench.Orders.orderFail
    by_cases hp : o.status = "pending"
    · simp [hp]
    · simp [hp]

/-- Witness for `orderStatusUpdatesUnguarded` at a concrete table holding one
completed order being cancelled. -/
theorem orderStatusUpdatesUnguarded_witness :
    Bench.Orders.statusOf
        (Bench.Orders.updateOrderStatusTCC
          [("o1", ⟨"u1", "p1", 5, "completed"⟩)] "o1" "cancelled") "o1"
      = some "cancelled" ∧
    Bench.Orders.statusOf
        (Bench.Orders.updateOrderStatusSaga
          [("o1", ⟨"u1", "p1", 5, "completed"⟩)] "o1" "cancelled") "o1"
      = some "cancelled" ∧
    (Bench.Orders.orderFail ⟨"u1", "p1", 5, "completed"⟩
        = .ok { Bench.Orders.Order.mk "u1" "p1" 5 "completed" with status := "rejected" } ↔
      ("completed" : String) = "pending") :=
  orderStatusUpdatesUnguarded [("o1", ⟨"u1", "p1", 5, "completed"⟩)] "o1" "cancelled"
    ⟨"u1", "p1", 5, "completed"⟩ (by rfl)

/-- C3 counterexample: re-posting TCC inventory Try after success is not
unconditionally idempotent.  From a store with `current_stock = 1`,
`stock_available = 1` a first Try succeeds (leaving `stock_available = 0`
and a pending ledger row); re-posting the same Try then returns the
`insufficient stock` error instead of success, because the use-case checks
`stock_available ≥ 1` before the pending-row idempotency check. -/
theorem tccInventoryTryRepostNotIdempotent :
    Bench.TCCInv.tryDecreaseStock ⟨[("p1", ⟨1, 1⟩)], []⟩ "p1" "o1"
      = .ok ⟨[("p1", ⟨1, 0⟩)], [⟨"p1", "o1", "pending"⟩]⟩ ∧
    Bench.TCCInv.tryDecreaseStock ⟨[("p1", ⟨1, 0⟩)], [⟨"p1", "o1", "pending"⟩]⟩ "p1" "o1"
      = .error "insufficient stock" := by
  constructor <;> rfl

/-- C3 amended: re-posting a participant phase with the same order id after
it succeeded returns success and leaves the store unchanged for every Saga
phase and for TCC Confirm, Cancel and the payments Try; for the TCC
inventory Try the availability check precedes the idempotent return, so the
re-post is a success-preserving noop only while `stock_available ≥ 1`. -/
theorem participantPhaseRepostIdempotency :
    (∀ (s : Bench.TCCInv.InvState) (pid oid : String) (p : Bench.TCCInv.Product),
      Bench.TCCInv.getProductForUpdate s pid = some p →
      1 ≤ p.stockAvailable →
      Bench.TCCInv.movementExists s oid "pending" = true →
      Bench.TCCInv.tryDecreaseStock s pid oid = .ok s) ∧
    (∀ (s : Bench.TCCPay.PayState) (uid oid : String) (a : Int)
        (w : Bench.TCCPay.Wallet),
      ¬ a ≤ 0 →
      Bench.TCCPay.getWalletForUpdate s uid = some w →
      Bench.TCCPay.transactionExists s oid "pending" = true →
      Bench.TCCPay.tryDebitWallet s uid oid a = .ok s) ∧
    (∀ (s : Bench.TCCInv.InvState) (pid oid : String) (p : Bench.TCCInv.Product),
      Bench.TCCInv.getProductForUpdate s pid = some p →
      Bench.TCCInv.movementExists s oid "completed" = true →
      Bench.TCCInv.confirmDecreaseStock s pid oid = .ok s) ∧
    (∀ (s : Bench.TCCPay.PayState) (uid oid : String) (a : Int)
        (w : Bench.TCCPay.Wallet),
      Bench.TCCPay.getWalletForUpdate s uid = some w →
      Bench.TCCPay.transactionExists s oid "completed" = true →
      Bench.TCCPay.confirmDebitWallet s uid oid a = .ok s) ∧
    (∀ (s : Bench.TCCInv.InvState) (pid oid : String) (p : Bench.TCCInv.Product),
      Bench.TCCInv.getProductForUpdate s pid = some p →
      Bench.TCCInv.movementStatus s oid = some "rejected" →
      Bench.TCCInv.cancelDecreaseStock s pid oid = .ok s) ∧
    (∀ (s : Bench.TCCPay.PayState) (uid oid : String) (a : Int)
        (w : Bench.TCCPay.Wallet),
      Bench.TCCPay.getWalletForUpdate s uid = some w →
      Bench.TCCPay.transactionStatus s oid = some "rejected" →
      Bench.TCCPay.cancelDebitWallet s uid oid a = .ok s) ∧
    (∀ (s : Bench.SagaInv.InvState) (pid oid : String) (c : Int),
      Bench.SagaInv.getProductForUpdate s pid = some c →
      Bench.SagaInv.movementExists s oid "decreased" = true →
      Bench.SagaInv.decreaseStock s pid oid = .ok s) ∧
    (∀ (s : Bench.SagaInv.InvState) (pid oid : String) (c : Int),
      Bench.SagaInv.getProductForUpdate s pid = some c →
      Bench.SagaInv.movementExists s oid "increased" = true →
      Bench.SagaInv.compensateStock s pid oid = .ok s) ∧
    (∀ (s : Bench.SagaPay.PayState) (uid oid : String) (a cur : Int),
      Bench.SagaPay.getWalletForUpdate s uid = some cur →
      Bench.SagaPay.paymentExists s oid "debit" = true →
      Bench.SagaPay.debitPayment s uid oid a = .ok s) ∧
    (∀ (s : Bench.SagaPay.PayState) (uid oid : String) (a cur : Int),
      Bench.SagaPay.getWalletForUpdate s uid = some cur →
      Bench.SagaPay.paymentExists s oid "credit" = true →
      Bench.SagaPay.compensatePayment s uid oid a = .ok s) := by
  refine ⟨?_, ?_, ?_, ?_, ?_, ?_, ?_, ?_, ?_, ?_⟩
  · intro s pid oid p hp hav hpend
    have : ¬ p.stockAvailable < 1 := by omega
    simp [Bench.TCCInv.tryDecreaseStock, hp, this, hpend]
  · intro s uid oid a w ha hw hpend
    simp [Bench.TCCPay.tryDebitWallet, ha, hw, hpend]
  · intro s pid oid p hp hcomp
    simp [Bench.TCCInv.confirmDecreaseStock, hp, hcomp]
  · intro s uid oid a w hw hcomp
    simp [Bench.TCCPay.confirmDebitWallet, hw, hcomp]
  · intro s pid oid p hp hrej
    simp [Bench.TCCInv.cancelDecreaseStock, hp, hrej]
  · intro s uid oid a w hw hrej
    simp [Bench.TCCPay.cancelDebitWallet, hw, hrej]
  · intro s pid oid c hc hdec
    simp [Bench.SagaInv.decreaseStock, hc, hdec]
  · intro s pid oid c hc hinc
    simp [Bench.SagaInv.compensateStock, hc, hinc]
  · intro s uid oid a cur hc hdeb
    simp [Bench.SagaPay.debitPayment, hc, hdeb]
  · intro s uid oid a cur hc hcred
    simp [Bench.SagaPay.compensatePayment, hc, hcred]

/-- Witness for `participantPhaseRepostIdempotency`, applying every conjunct
at a concrete store in which the relevant ledger row already exists. -/
theorem participantPhaseRepostIdempotency_witness :
    Bench.TCCInv.tryDecreaseStock ⟨[("p1", ⟨5, 3⟩)], [⟨"p1", "o1", "pending"⟩]⟩ "p1" "o1"
      = .ok ⟨[("p1", ⟨5, 3⟩)], [⟨"p1", "o1", "pending"⟩]⟩ ∧
    Bench.TCCPay.tryDebitWallet ⟨[("u1", ⟨100, 50⟩)], [⟨"u1", "o1", 10, "pending"⟩]⟩
        "u1" "o1" 10
      = .ok ⟨[("u1", ⟨100, 50⟩)], [⟨"u1", "o1", 10, "pending"⟩]⟩ ∧
    Bench.TCCInv.confirmDecreaseStock
        ⟨[("p1", ⟨5, 3⟩)], [⟨"p1", "o1", "completed"⟩]⟩ "p1" "o1"
      = .ok ⟨[("p1", ⟨5, 3⟩)], [⟨"p1", "o1", "completed"⟩]⟩ ∧
    Bench.TCCPay.confirmDebitWallet
        ⟨[("u1", ⟨100, 50⟩)], [⟨"u1", "o1", 10, "completed"⟩]⟩ "u1" "o1" 10
      = .ok ⟨[("u1", ⟨100, 50⟩)], [⟨"u1", "o1", 10, "completed"⟩]⟩ ∧
    Bench.TCCInv.cancelDecreaseStock
        ⟨[("p1", ⟨5, 3⟩)], [⟨"p1", "o1", "rejected"⟩]⟩ "p1" "o1"
      = .ok ⟨[("p1", ⟨5, 3⟩)], [⟨"p1", "o1", "rejected"⟩]⟩ ∧
    Bench.TCCPay.cancelDebitWallet
        ⟨[("u1", ⟨100, 50⟩)], [⟨"u1", "o1", 10, "rejected"⟩]⟩ "u1" "o1" 10
      = .ok ⟨[("u1", ⟨100, 50⟩)], [⟨"u1", "o1", 10, "rejected"⟩]⟩ ∧
    Bench.SagaInv.decreaseStock ⟨[("p1", 5)], [⟨"p1", "o1", "decreased"⟩]⟩ "p1" "o1"
      = .ok ⟨[("p1", 5)], [⟨"p1", "o1", "decreased"⟩]⟩ ∧
    Bench.SagaInv.compensateStock ⟨[("p1", 5)], [⟨"p1", "o1", "increased"⟩]⟩ "p1" "o1"
      = .ok ⟨[("p1", 5)], [⟨"p1", "o1", "increased"⟩]⟩ ∧
    Bench.SagaPay.debitPayment ⟨[("u1", 100)], [⟨"u1", "o1", 10, "debit"⟩]⟩ "u1" "o1" 10
      = .ok ⟨[("u1", 100)], [⟨"u1", "o1", 10, "debit"⟩]⟩ ∧
    Bench.SagaPay.compensatePayment
        ⟨[("u1", 100)], [⟨"u1", "o1", 10, "credit"⟩]⟩ "u1" "o1" 10
      = .ok ⟨[("u1", 100)], [⟨"u1", "o1", 10, "credit"⟩]⟩ :=
  ⟨participantPhaseRepostIdempotency.1 _ "p1" "o1" ⟨5, 3⟩ (by rfl) (by decide) (by decide),
   participantPhaseRepostIdempotency.2.1 _ "u1" "o1" 10 ⟨100, 50⟩ (by decide) (by rfl)
     (by decide),
   participantPhaseRepostIdempotency.2.2.1 _ "p1" "o1" ⟨5, 3⟩ (by rfl) (by decide),
   participantPhaseRepostIdempotency.2.2.2.1 _ "u1" "o1" 10 ⟨100, 50⟩ (by rfl) (by decide),
   participantPhaseRepostIdempotency.2.2.2.2.1 _ "p1" "o1" ⟨5, 3⟩ (by rfl) (by rfl),
   participantPhaseRepostIdempotency.2.2.2.2.2.1 _ "u1" "o1" 10 ⟨100, 50⟩ (by rfl) (by rfl),
   participantPhaseRepostIdempotency.2.2.2.2.2.2.1 _ "p1" "o1" 5 (by rfl) (by decide),
   participantPhaseRepostIdempotency.2.2.2.2.2.2.2.1 _ "p1" "o1" 5 (by rfl) (by decide),
   participantPhaseRepostIdempotency.2.2.2.2.2.2.2.2.1 _ "u1" "o1" 10 100 (by rfl)
     (by decide),
   participantPhaseRepostIdempotency.2.2.2.2.2.2.2.2.2 _ "u1" "o1" 10 100 (by rfl)
     (by decide)⟩

/-- C4: the Saga `DebitPayment` use-case does guard against insufficient
funds (contrary to the §9 note of the spec): when the wallet exists, no
`debit` ledger row exists for the order, and `current_amount < amount`, the
use-case returns the `insufficient funds` error (so the transaction is
rolled back, the store is unchanged and no ledger row is written) and the
handler surfaces it as HTTP 400. -/
theorem sagaDebitInsufficientFundsRejected (s : Bench.SagaPay.PayState)
    (uid oid : String) (a cur : Int)
    (hw : Bench.SagaPay.getWalletForUpdate s uid = some cur)
    (hno : Bench.SagaPay.paymentExists s oid "debit" = false)
    (hlt : cur < a) :
    Bench.SagaPay.debitPayment s uid oid a = .error "insufficient funds" ∧
    Bench.SagaPay.debitStatus (Bench.SagaPay.debitPayment s uid oid a) = 400 := by
  have h1 : Bench.SagaPay.debitPayment s uid oid a = .error "insufficient funds" := by
    simp [Bench.SagaPay.debitPayment, hw, hno, hlt]
  refine ⟨h1, ?_⟩
  rw [h1]
  decide

/-- Witness for `sagaDebitInsufficientFundsRejected`: wallet with balance 5,
empty ledger, debit of 10. -/
theorem sagaDebitInsufficientFundsRejected_witness :
    Bench.SagaPay.debitPayment ⟨[("u1", 5)], []⟩ "u1" "o1" 10
      = .error "insufficient funds" ∧
    Bench.SagaPay.debitStatus (Bench.SagaPay.debitPayment ⟨[("u1", 5)], []⟩ "u1" "o1" 10)
      = 400 :=
  sagaDebitInsufficientFundsRejected ⟨[("u1", 5)], []⟩ "u1" "o1" 10 5 (by rfl) (by decide)
    (by decide)

/-- C5 counterexample: the TCC inventory handlers surface every use-case
failure as HTTP 500.  A business refusal (Try on a product with
`stock_available = 0`, the `insufficient stock` refusal) yields 500 instead
of the claimed 400, and a conflict (Cancel observing a `completed` ledger
row) yields 500 instead of the claimed 409. -/
theorem tccBusinessRefusalSurfacedAs500 :
    Bench.TCCInv.phaseStatus
        (Bench.TCCInv.tryDecreaseStock ⟨[("p1", ⟨0, 0⟩)], []⟩ "p1" "o1") = 500 ∧
    Bench.TCCInv.phaseStatus
        (Bench.TCCInv.cancelDecreaseStock
          ⟨[("p1", ⟨1, 1⟩)], [⟨"p1", "o1", "completed"⟩]⟩ "p1" "o1") = 500 := by
  constructor <;> rfl

/-- C5 amended: the status mapping is per-protocol, not uniform.  The Saga
forward handlers map the `insufficient stock` / `insufficient funds`
refusals to 400 (but an entity-not-found failure to 500, since the lock
error message does not contain the scanned `product not found` pattern),
while every TCC handler maps every use-case failure — business refusals and
cancel-on-completed conflicts included — to 500. -/
theorem participantHttpStatusMapping :
    (∀ (s : Bench.TCCInv.InvState) (pid oid : String) (p : Bench.TCCInv.Product),
      Bench.TCCInv.getProductForUpdate s pid = some p →
      p.stockAvailable < 1 →
      Bench.TCCInv.phaseStatus (Bench.TCCInv.tryDecreaseStock s pid oid) = 500) ∧
    (∀ (s : Bench.TCCInv.InvState) (pid oid : String) (p : Bench.TCCInv.Product),
      Bench.TCCInv.getProductForUpdate s pid = some p →
      Bench.TCCInv.movementStatus s oid = some "completed" →
      Bench.TCCInv.phaseStatus (Bench.TCCInv.cancelDecreaseStock s pid oid) = 500) ∧
    (∀ (s : Bench.SagaInv.InvState) (pid oid : String) (c : Int),
      Bench.SagaInv.getProductForUpdate s pid = some c →
      Bench.SagaInv.movementExists s oid "decreased" = false →
      c < 1 →
      Bench.SagaInv.decreaseStatus (Bench.SagaInv.decreaseStock s pid oid) = 400) ∧
    (∀ (s : Bench.SagaPay.PayState) (uid oid : String) (a cur : Int),
      Bench.SagaPay.getWalletForUpdate s uid = some cur →
      Bench.SagaPay.paymentExists s oid "debit" = false →
      cur < a →
      Bench.SagaPay.debitStatus (Bench.SagaPay.debitPayment s uid oid a) = 400) ∧
    Bench.SagaInv.decreaseStatus
        (Bench.SagaInv.decreaseStock ⟨[], []⟩ "p1" "o1") = 500 := by
  refine ⟨?_, ?_, ?_, ?_, by rfl⟩
  · intro s pid oid p hp hlt
    simp [Bench.TCCInv.tryDecreaseStock, hp, hlt, Bench.TCCInv.phaseStatus]
  · intro s pid oid p hp hst
    simp [Bench.TCCInv.cancelDecreaseStock, hp, hst, Bench.TCCInv.phaseStatus]
  · intro s pid oid c hc hno hlt
    have h1 : Bench.SagaInv.decreaseStock s pid oid
        = .error ("insufficient stock for product " ++ pid) := by
      simp [Bench.SagaInv.decreaseStock, hc, hno, hlt]
    have hm : Bench.matchesAt ("insufficient stock".toList)
        ("insufficient stock for product ".toList) = true := by decide
    have hm2 := Bench.matchesAt_of_append ("insufficient stock".toList)
      ("insufficient stock for product ".toList) pid.data hm
    have hs := Bench.scanFor_of_head ("insufficient stock".toList)
      (("insufficient stock for product ".toList) ++ pid.data) hm2
    have hca : Bench.containsAny ("insufficient stock for product " ++ pid)
        ["product not found", "insufficient stock"] = true := by
      simp only [Bench.containsAny, List.any_cons, List.any_nil, Bool.or_eq_true]
      right
      left
      show Bench.scanFor ("insufficient stock".toList)
        (("insufficient stock for product ".toList) ++ pid.data) = true
      exact hs
    rw [h1]
    simp [Bench.SagaInv.decreaseStatus, hca]
  · intro s uid oid a cur hw hno hlt
    have h1 : Bench.SagaPay.debitPayment s uid oid a = .error "insufficient funds" := by
      simp [Bench.SagaPay.debitPayment, hw, hno, hlt]
    rw [h1]
    decide

/-- Witness for `participantHttpStatusMapping` at concrete stores: TCC
refusal and conflict both 500, Saga insufficient-stock and
insufficient-funds refusals 400. -/
theorem participantHttpStatusMapping_witness :
    Bench.TCCInv.phaseStatus
        (Bench.TCCInv.tryDecreaseStock ⟨[("p1", ⟨0, 0⟩)], []⟩ "p1" "o2") = 500 ∧
    Bench.TCCInv.phaseStatus
        (Bench.TCCInv.cancelDecreaseStock
          ⟨[("p2", ⟨1, 1⟩)], [⟨"p2", "o2", "completed"⟩]⟩ "p2" "o2") = 500 ∧
    Bench.SagaInv.decreaseStatus
        (Bench.SagaInv.decreaseStock ⟨[("p2", 0)], []⟩ "p2" "o2") = 400 ∧
    Bench.SagaPay.debitStatus
        (Bench.SagaPay.debitPayment ⟨[("u2", 5)], []⟩ "u2" "o2" 10) = 400 :=
  ⟨participantHttpStatusMapping.1 ⟨[("p1", ⟨0, 0⟩)], []⟩ "p1" "o2" ⟨0, 0⟩ (by rfl)
      (by decide),
   participantHttpStatusMapping.2.1 ⟨[("p2", ⟨1, 1⟩)], [⟨"p2", "o2", "completed"⟩]⟩
      "p2" "o2" ⟨1, 1⟩ (by rfl) (by rfl),
   participantHttpStatusMapping.2.2.1 ⟨[("p2", 0)], []⟩ "p2" "o2" 0 (by rfl) (by decide)
      (by decide),
   participantHttpStatusMapping.2.2.2.1 ⟨[("u2", 5)], []⟩ "u2" "o2" 10 5 (by rfl)
      (by decide) (by decide)⟩

/-- C6 counterexample: the Saga orchestrator success response is not the
claimed `202 { order_id, trace_id, status: processing }`.  The handler
`CreateOrderSaga` returns HTTP 200 and its body carries `order_id`,
`saga_gid` and `message` — there is no `status` field and no `trace_id`
field. -/
theorem sagaOrchestratorResponseNot202 :
    (Bench.Http.sagaCreateOrderResponse "o1" "g1").status = 200 ∧
    Bench.Http.bodyField (Bench.Http.sagaCreateOrderResponse "o1" "g1") "status" = none ∧
    Bench.Http.bodyField (Bench.Http.sagaCreateOrderResponse "o1" "g1") "trace_id"
      = none := by
  refine ⟨rfl, rfl, rfl⟩

/-- C6 amended: the TCC orchestrator responds `202` with `order_id`,
`trace_id` and `status: processing`; the XA orchestrator responds `200`
with `order_id`, `trace_id` and `status: completed` after the global
outcome is known; the Saga orchestrator responds `200` with `order_id` and
`saga_gid` and carries neither a `status` nor a `trace_id` field. -/
theorem orchestratorCreateOrderResponses (orderID traceID gid : String) :
    (Bench.Http.tccCreateOrderResponse orderID traceID).status = 202 ∧
    Bench.Http.bodyField (Bench.Http.tccCreateOrderResponse orderID traceID) "order_id"
      = some orderID ∧
    Bench.Http.bodyField (Bench.Http.tccCreateOrderResponse orderID traceID) "trace_id"
      = some traceID ∧
    Bench.Http.bodyField (Bench.Http.tccCreateOrderResponse orderID traceID) "status"
      = some "processing" ∧
    (Bench.Http.xaCreateOrderResponse orderID traceID).status = 200 ∧
    Bench.Http.bodyField (Bench.Http.xaCreateOrderResponse orderID traceID) "order_id"
      = some orderID ∧
    Bench.Http.bodyField (Bench.Http.xaCreateOrderResponse orderID traceID) "trace_id"
      = some traceID ∧
    Bench.Http.bodyField (Bench.Http.xaCreateOrderResponse orderID traceID) "status"
      = some "completed" ∧
    (Bench.Http.sagaCreateOrderResponse orderID gid).status = 200 ∧
    Bench.Http.bodyField (Bench.Http.sagaCreateOrderResponse orderID gid) "order_id"
      = some orderID ∧
    Bench.Http.bodyField (Bench.Http.sagaCreateOrderResponse orderID gid) "saga_gid"
      = some gid ∧
    Bench.Http.bodyField (Bench.Http.sagaCreateOrderResponse orderID gid) "status"
      = none := by
  refine ⟨rfl, rfl, rfl, rfl, rfl, rfl, rfl, rfl, rfl, rfl, rfl, rfl⟩

namespace Bench.TCCInv

theorem find?_cancelStock_map (l : List Movement) (oid : String) (m : Movement)
    (h : l.find? (fun x => x.orderId = oid) = some m) (hm : m.status = "pending") :
    ((l.map fun x => if x.orderId = oid ∧ x.status = "pending"
        then { x with status := "rejected" } else x).find? fun x => x.orderId = oid)
      = some { m with status := "rejected" } := by
  induction l with
  | nil => simp [List.find?] at h
  | cons a rest ih =>
    by_cases ha : a.orderId = oid
    · rw [List.find?_cons_of_pos _ (by simpa using ha)] at h
      have h' : a = m := Option.some.inj h
      subst h'
      rw [List.map_cons, if_pos ⟨ha, hm⟩]
      rw [List.find?_cons_of_pos _ (by simpa using ha)]
    · rw [List.find?_cons_of_neg _ (by simpa using ha)] at h
      rw [List.map_cons, if_neg (fun hc => ha hc.1)]
      rw [List.find?_cons_of_neg _ (by simpa using ha)]
      exact ih h

end Bench.TCCInv

namespace Bench.TCCPay

theorem find?_cancelBalance_map (l : List PaymentTransaction) (oid : String)
    (m : PaymentTransaction)
    (h : l.find? (fun x => x.orderId = oid) = some m) (hm : m.status = "pending") :
    ((l.map fun x => if x.orderId = oid ∧ x.status = "pending"
        then { x with status := "rejected" } else x).find? fun x => x.orderId = oid)
      = some { m with status := "rejected" } := by
  induction l with
  | nil => simp [List.find?] at h
  | cons a rest ih =>
    by_cases ha : a.orderId = oid
    · rw [List.find?_cons_of_pos _ (by simpa using ha)] at h
      have h' : a = m := Option.some.inj h
      subst h'
      rw [List.map_cons, if_pos ⟨ha, hm⟩]
      rw [List.find?_cons_of_pos _ (by simpa using ha)]
    · rw [List.find?_cons_of_neg _ (by simpa using ha)] at h
      rw [List.map_cons, if_neg (fun hc => ha hc.1)]
      rw [List.find?_cons_of_neg _ (by simpa using ha)]
      exact ih h

end Bench.TCCPay

/-- C7: the outcome of a TCC Cancel, on inventory and on payments, is
determined by the ledger status of the order: no ledger row or a `rejected`
row → success with the store unchanged; a `completed` row → failure; a
`pending` row → success, with `available` incremented back by the reserved
quantity (1 unit / the request amount) and the pending ledger row updated to
`rejected`. -/
theorem tccCancelOutcomeByLedgerStatus :
    (∀ (s : Bench.TCCInv.InvState) (pid oid : String) (p : Bench.TCCInv.Product),
      Bench.TCCInv.getProductForUpdate s pid = some p →
      (Bench.TCCInv.movementStatus s oid = none →
        Bench.TCCInv.cancelDecreaseStock s pid oid = .ok s) ∧
      (Bench.TCCInv.movementStatus s oid = some "rejected" →
        Bench.TCCInv.cancelDecreaseStock s pid oid = .ok s) ∧
      (Bench.TCCInv.movementStatus s oid = some "completed" →
        Bench.TCCInv.cancelDecreaseStock s pid oid
          = .error "invalid status to cancel") ∧
      (Bench.TCCInv.movementStatus s oid = some "pending" →
        Bench.TCCInv.cancelDecreaseStock s pid oid
          = .ok (Bench.TCCInv.cancelReserveStock s pid oid) ∧
        Bench.TCCInv.getProductForUpdate (Bench.TCCInv.cancelReserveStock s pid oid) pid
          = some { p with stockAvailable := p.stockAvailable + 1 } ∧
        Bench.TCCInv.movementStatus (Bench.TCCInv.cancelReserveStock s pid oid) oid
          = some "rejected")) ∧
    (∀ (s : Bench.TCCPay.PayState) (uid oid : String) (a : Int)
        (w : Bench.TCCPay.Wallet),
      Bench.TCCPay.getWalletForUpdate s uid = some w →
      (Bench.TCCPay.transactionStatus s oid = none →
        Bench.TCCPay.cancelDebitWallet s uid oid a = .ok s) ∧
      (Bench.TCCPay.transactionStatus s oid = some "rejected" →
        Bench.TCCPay.cancelDebitWallet s uid oid a = .ok s) ∧
      (Bench.TCCPay.transactionStatus s oid = some "completed" →
        Bench.TCCPay.cancelDebitWallet s uid oid a
          = .error ("cannot cancel completed transaction for order " ++ oid)) ∧
      (Bench.TCCPay.transactionStatus s oid = some "pending" →
        Bench.TCCPay.cancelDebitWallet s uid oid a
          = .ok (Bench.TCCPay.cancelReserveBalance s uid oid a) ∧
        Bench.TCCPay.getWalletForUpdate (Bench.TCCPay.cancelReserveBalance s uid oid a) uid
          = some { w with availableAmount := w.availableAmount + a } ∧
        Bench.TCCPay.transactionStatus (Bench.TCCPay.cancelReserveBalance s uid oid a) oid
          = some "rejected")) := by
  constructor
  · intro s pid oid p hp
    refine ⟨?_, ?_, ?_, ?_⟩
    · intro hst
      simp [Bench.TCCInv.cancelDecreaseStock, hp, hst]
    · intro hst
      simp [Bench.TCCInv.cancelDecreaseStock, hp, hst]
    · intro hst
      simp [Bench.TCCInv.cancelDecreaseStock, hp, hst]
    · intro hst
      obtain ⟨m, hfind, hstat⟩ := Option.map_eq_some'.mp hst
      refine ⟨?_, ?_, ?_⟩
      · simp [Bench.TCCInv.cancelDecreaseStock, hp, hst]
      · simp [Bench.TCCInv.getProductForUpdate, Bench.TCCInv.cancelReserveStock,
          Bench.lookupA_adjustA_self,
          show Bench.lookupA s.products pid = some p from hp]
      · unfold Bench.TCCInv.movementStatus Bench.TCCInv.cancelReserveStock
        rw [Bench.TCCInv.find?_cancelStock_map s.movements oid m hfind hstat]
        rfl
  · intro s uid oid a w hw
    refine ⟨?_, ?_, ?_, ?_⟩
    · intro hst
      simp [Bench.TCCPay.cancelDebitWallet, hw, hst]
    · intro hst
      simp [Bench.TCCPay.cancelDebitWallet, hw, hst]
    · intro hst
      simp [Bench.TCCPay.cancelDebitWallet, hw, hst]
    · intro hst
      obtain ⟨m, hfind, hstat⟩ := Option.map_eq_some'.mp hst
      refine ⟨?_, ?_, ?_⟩
      · simp [Bench.TCCPay.cancelDebitWallet, hw, hst]
      · simp [Bench.TCCPay.getWalletForUpdate, Bench.TCCPay.cancelReserveBalance,
          Bench.lookupA_adjustA_self,
          show Bench.lookupA s.wallets uid = some w from hw]
      · unfold Bench.TCCPay.transactionStatus Bench.TCCPay.cancelReserveBalance
        rw [Bench.TCCPay.find?_cancelBalance_map s.transactions oid m hfind hstat]
        rfl

/-- Witness for `tccCancelOutcomeByLedgerStatus`: all four ledger cases on
both services at concrete stores. -/
theorem tccCancelOutcomeByLedgerStatus_witness :
    Bench.TCCInv.cancelDecreaseStock ⟨[("p1", ⟨5, 3⟩)], []⟩ "p1" "o1"
      = .ok ⟨[("p1", ⟨5, 3⟩)], []⟩ ∧
    Bench.TCCInv.cancelDecreaseStock
        ⟨[("p1", ⟨5, 3⟩)], [⟨"p1", "o1", "rejected"⟩]⟩ "p1" "o1"
      = .ok ⟨[("p1", ⟨5, 3⟩)], [⟨"p1", "o1", "rejected"⟩]⟩ ∧
    Bench.TCCInv.cancelDecreaseStock
        ⟨[("p1", ⟨5, 3⟩)], [⟨"p1", "o1", "completed"⟩]⟩ "p1" "o1"
      = .error "invalid status to cancel" ∧
    Bench.TCCInv.getProductForUpdate
        (Bench.TCCInv.cancelReserveStock
          ⟨[("p1", ⟨5, 3⟩)], [⟨"p1", "o1", "pending"⟩]⟩ "p1" "o1") "p1"
      = some ⟨5, 3 + 1⟩ ∧
    Bench.TCCInv.movementStatus
        (Bench.TCCInv.cancelReserveStock
          ⟨[("p1", ⟨5, 3⟩)], [⟨"p1", "o1", "pending"⟩]⟩ "p1" "o1") "o1"
      = some "rejected" ∧
    Bench.TCCPay.cancelDebitWallet ⟨[("u1", ⟨100, 50⟩)], []⟩ "u1" "o1" 10
      = .ok ⟨[("u1", ⟨100, 50⟩)], []⟩ ∧
    Bench.TCCPay.cancelDebitWallet
        ⟨[("u1", ⟨100, 50⟩)], [⟨"u1", "o1", 10, "completed"⟩]⟩ "u1" "o1" 10
      = .error "cannot cancel completed transaction for order o1" ∧
    Bench.TCCPay.getWalletForUpdate
        (Bench.TCCPay.cancelReserveBalance
          ⟨[("u1", ⟨100, 50⟩)], [⟨"u1", "o1", 10, "pending"⟩]⟩ "u1" "o1" 10) "u1"
      = some ⟨100, 50 + 10⟩ ∧
    Bench.TCCPay.transactionStatus
        (Bench.TCCPay.cancelReserveBalance
          ⟨[("u1", ⟨100, 50⟩)], [⟨"u1", "o1", 10, "pending"⟩]⟩ "u1" "o1" 10) "o1"
      = some "rejected" :=
  ⟨(tccCancelOutcomeByLedgerStatus.1 ⟨[("p1", ⟨5, 3⟩)], []⟩ "p1" "o1" ⟨5, 3⟩ (by rfl)).1
      (by rfl),
   (tccCancelOutcomeByLedgerStatus.1 ⟨[("p1", ⟨5, 3⟩)], [⟨"p1", "o1", "rejected"⟩]⟩
      "p1" "o1" ⟨5, 3⟩ (by rfl)).2.1 (by rfl),
   (tccCancelOutcomeByLedgerStatus.1 ⟨[("p1", ⟨5, 3⟩)], [⟨"p1", "o1", "completed"⟩]⟩
      "p1" "o1" ⟨5, 3⟩ (by rfl)).2.2.1 (by rfl),
   ((tccCancelOutcomeByLedgerStatus.1 ⟨[("p1", ⟨5, 3⟩)], [⟨"p1", "o1", "pending"⟩]⟩
      "p1" "o1" ⟨5, 3⟩ (by rfl)).2.2.2 (by rfl)).2.1,
   ((tccCancelOutcomeByLedgerStatus.1 ⟨[("p1", ⟨5, 3⟩)], [⟨"p1", "o1", "pending"⟩]⟩
      "p1" "o1" ⟨5, 3⟩ (by rfl)).2.2.2 (by rfl)).2.2,
   (tccCancelOutcomeByLedgerStatus.2 ⟨[("u1", ⟨100, 50⟩)], []⟩ "u1" "o1" 10 ⟨100, 50⟩
      (by rfl)).1 (by rfl),
   (tccCancelOutcomeByLedgerStatus.2
      ⟨[("u1", ⟨100, 50⟩)], [⟨"u1", "o1", 10, "completed"⟩]⟩ "u1" "o1" 10 ⟨100, 50⟩
      (by rfl)).2.2.1 (by rfl),
   ((tccCancelOutcomeByLedgerStatus.2
      ⟨[("u1", ⟨100, 50⟩)], [⟨"u1", "o1", 10, "pending"⟩]⟩ "u1" "o1" 10 ⟨100, 50⟩
      (by rfl)).2.2.2 (by rfl)).2.1,
   ((tccCancelOutcomeByLedgerStatus.2
      ⟨[("u1", ⟨100, 50⟩)], [⟨"u1", "o1", 10, "pending"⟩]⟩ "u1" "o1" 10 ⟨100, 50⟩
      (by rfl)).2.2.2 (by rfl)).2.2⟩

/-- C8: the 2PC/XA stock decrement succeeds exactly when the product row
exists with `current_stock ≥ 1` (the `WHERE current_stock >= 1` guard), the
wallet debit exactly when `current_amount ≥ amount`; when zero rows are
affected the branch returns an error and writes no ledger row, and on
success the guarded decrement cannot leave the balance negative. -/
theorem xaGuardedUpdates :
    (∀ (s : Bench.XA.InvState) (pid oid : String) (c : Int),
      Bench.lookupA s.products pid = some c →
      (1 ≤ c →
        Bench.XA.decreaseStockXA s pid oid
          = .ok { products := Bench.adjustA s.products pid fun x => x - 1
                  movements := (pid, oid) :: s.movements } ∧
        Bench.lookupA (Bench.adjustA s.products pid fun x => x - 1) pid
          = some (c - 1) ∧ 0 ≤ c - 1) ∧
      (c < 1 →
        Bench.XA.decreaseStockXA s pid oid
          = .error ("insufficient stock or product not found: " ++ pid)) ∧
      ((∃ s2, Bench.XA.decreaseStockXA s pid oid = .ok s2) ↔ 1 ≤ c)) ∧
    (∀ (s : Bench.XA.PayState) (uid oid : String) (a c : Int),
      Bench.lookupA s.wallets uid = some c →
      (a ≤ c →
        Bench.XA.debitBalanceXA s uid oid a
          = .ok { wallets := Bench.adjustA s.wallets uid fun x => x - a
                  transactions := (uid, oid, a) :: s.transactions } ∧
        Bench.lookupA (Bench.adjustA s.wallets uid fun x => x - a) uid
          = some (c - a) ∧ 0 ≤ c - a) ∧
      (c < a →
        Bench.XA.debitBalanceXA s uid oid a
          = .error ("insufficient balance or user not found: " ++ uid)) ∧
      ((∃ s2, Bench.XA.debitBalanceXA s uid oid a = .ok s2) ↔ a ≤ c)) := by
  constructor
  · intro s pid oid c hc
    have hok : ∀ h1 : 1 ≤ c,
        Bench.XA.decreaseStockXA s pid oid
          = .ok { products := Bench.adjustA s.products pid fun x => x - 1
                  movements := (pid, oid) :: s.movements } := by
      intro h1
      simp [Bench.XA.decreaseStockXA, hc, h1]
    have herr : ∀ h1 : c < 1,
        Bench.XA.decreaseStockXA s pid oid
          = .error ("insufficient stock or product not found: " ++ pid) := by
      intro h1
      have : ¬ c ≥ 1 := by omega
      simp [Bench.XA.decreaseStockXA, hc, this]
    refine ⟨fun h1 => ⟨hok h1, ?_, by omega⟩, herr, ?_, fun h1 => ⟨_, hok h1⟩⟩
    · simp [Bench.lookupA_adjustA_self, hc]
    · rintro ⟨s2, h2⟩
      by_contra hlt
      rw [herr (by omega)] at h2
      exact Except.noConfusion h2
  · intro s uid oid a c hc
    have hok : ∀ h1 : a ≤ c,
        Bench.XA.debitBalanceXA s uid oid a
          = .ok { wallets := Bench.adjustA s.wallets uid fun x => x - a
                  transactions := (uid, oid, a) :: s.transactions } := by
      intro h1
      simp [Bench.XA.debitBalanceXA, hc, h1]
    have herr : ∀ h1 : c < a,
        Bench.XA.debitBalanceXA s uid oid a
          = .error ("insufficient balance or user not found: " ++ uid) := by
      intro h1
      have : ¬ c ≥ a := by omega
      simp [Bench.XA.debitBalanceXA, hc, this]
    refine ⟨fun h1 => ⟨hok h1, ?_, by omega⟩, herr, ?_, fun h1 => ⟨_, hok h1⟩⟩
    · simp [Bench.lookupA_adjustA_self, hc]
    · rintro ⟨s2, h2⟩
      by_contra hlt
      rw [herr (by omega)] at h2
      exact Except.noConfusion h2

/-- Witness for `xaGuardedUpdates`: a stocked product and a funded wallet
succeed; an empty product and an underfunded wallet fail the branch. -/
theorem xaGuardedUpdates_witness :
    Bench.XA.decreaseStockXA ⟨[("p1", 5)], []⟩ "p1" "o1"
      = .ok { products := Bench.adjustA [("p1", 5)] "p1" fun x => x - 1
              movements := [("p1", "o1")] } ∧
    Bench.XA.decreaseStockXA ⟨[("p1", 0)], []⟩ "p1" "o1"
      = .error "insufficient stock or product not found: p1" ∧
    Bench.XA.debitBalanceXA ⟨[("u1", 100)], []⟩ "u1" "o1" 30
      = .ok { wallets := Bench.adjustA [("u1", 100)] "u1" fun x => x - 30
              transactions := [("u1", "o1", 30)] } ∧
    Bench.XA.debitBalanceXA ⟨[("u1", 10)], []⟩ "u1" "o1" 30
      = .error "insufficient balance or user not found: u1" :=
  ⟨((xaGuardedUpdates.1 ⟨[("p1", 5)], []⟩ "p1" "o1" 5 (by rfl)).1 (by decide)).1,
   (xaGuardedUpdates.1 ⟨[("p1", 0)], []⟩ "p1" "o1" 0 (by rfl)).2.1 (by decide),
   ((xaGuardedUpdates.2 ⟨[("u1", 100)], []⟩ "u1" "o1" 30 100 (by rfl)).1 (by decide)).1,
   (xaGuardedUpdates.2 ⟨[("u1", 10)], []⟩ "u1" "o1" 30 10 (by rfl)).2.1 (by decide)⟩

namespace Bench.SagaInv

theorem movementExists_false_of_fresh (s : InvState) (oid t : String)
    (h : movementsFor s oid = []) : movementExists s oid t = false := by
  unfold movementsFor at h
  have hall : ∀ m ∈ s.movements, m.orderId ≠ oid := by
    intro m hm heq
    have hmem : m ∈ s.movements.filter (fun m => m.orderId = oid) :=
      List.mem_filter.mpr ⟨hm, by simpa using heq⟩
    rw [h] at hmem
    simp at hmem
  unfold movementExists
  rw [List.any_eq_false]
  intro m hm
  simp [hall m hm]

end Bench.SagaInv

namespace Bench.SagaPay

theorem paymentExists_false_of_fresh (s : PayState) (oid t : String)
    (h : paymentsFor s oid = []) : paymentExists s oid t = false := by
  unfold paymentsFor at h
  have hall : ∀ p ∈ s.payments, p.orderId ≠ oid := by
    intro p hp heq
    have hmem : p ∈ s.payments.filter (fun p => p.orderId = oid) :=
      List.mem_filter.mpr ⟨hp, by simpa using heq⟩
    rw [h] at hmem
    simp at hmem
  unfold paymentExists
  rw [List.any_eq_false]
  intro p hp
  simp [hall p hp]

end Bench.SagaPay

/-- C9: running the Saga forward step and then its compensation on a
resource with sufficient balance and no prior ledger rows for the order
restores `current_stock` / `current_amount` to their initial values and
leaves exactly two ledger rows for the order, one forward and one
reverse. -/
theorem sagaRoundTripRestoresBalances :
    (∀ (s : Bench.SagaInv.InvState) (pid oid : String) (c : Int),
      Bench.SagaInv.getProductForUpdate s pid = some c →
      Bench.SagaInv.movementsFor s oid = [] →
      1 ≤ c →
      Bench.SagaInv.decreaseStock s pid oid
        = .ok (Bench.SagaInv.decreaseStockRepo s pid oid) ∧
      Bench.SagaInv.compensateStock (Bench.SagaInv.decreaseStockRepo s pid oid) pid oid
        = .ok (Bench.SagaInv.increaseStockRepo
            (Bench.SagaInv.decreaseStockRepo s pid oid) pid oid) ∧
      Bench.SagaInv.getProductForUpdate
          (Bench.SagaInv.increaseStockRepo
            (Bench.SagaInv.decreaseStockRepo s pid oid) pid oid) pid
        = some c ∧
      Bench.SagaInv.movementsFor
          (Bench.SagaInv.increaseStockRepo
            (Bench.SagaInv.decreaseStockRepo s pid oid) pid oid) oid
        = [⟨pid, oid, "increased"⟩, ⟨pid, oid, "decreased"⟩]) ∧
    (∀ (s : Bench.SagaPay.PayState) (uid oid : String) (a cur : Int),
      Bench.SagaPay.getWalletForUpdate s uid = some cur →
      Bench.SagaPay.paymentsFor s oid = [] →
      a ≤ cur →
      Bench.SagaPay.debitPayment s uid oid a
        = .ok (Bench.SagaPay.debitWalletRepo s uid oid a) ∧
      Bench.SagaPay.compensatePayment (Bench.SagaPay.debitWalletRepo s uid oid a) uid oid a
        = .ok (Bench.SagaPay.creditWalletRepo
            (Bench.SagaPay.debitWalletRepo s uid oid a) uid oid a) ∧
      Bench.SagaPay.getWalletForUpdate
          (Bench.SagaPay.creditWalletRepo
            (Bench.SagaPay.debitWalletRepo s uid oid a) uid oid a) uid
        = some cur ∧
      Bench.SagaPay.paymentsFor
          (Bench.SagaPay.creditWalletRepo
            (Bench.SagaPay.debitWalletRepo s uid oid a) uid oid a) oid
        = [⟨uid, oid, a, "credit"⟩, ⟨uid, oid, a, "debit"⟩]) := by
  constructor
  · intro s pid oid c hc hfresh hstock
    have hnoDec := Bench.SagaInv.movementExists_false_of_fresh s oid "decreased" hfresh
    have hnoInc := Bench.SagaInv.movementExists_false_of_fresh s oid "increased" hfresh
    have hlock1 : Bench.SagaInv.getProductForUpdate
        (Bench.SagaInv.decreaseStockRepo s pid oid) pid = some (c - 1) := by
      simp [Bench.SagaInv.getProductForUpdate, Bench.SagaInv.decreaseStockRepo,
        Bench.lookupA_adjustA_self,
        show Bench.lookupA s.products pid = some c from hc]
    have hnoInc1 : Bench.SagaInv.movementExists
        (Bench.SagaInv.decreaseStockRepo s pid oid) oid "increased" = false := by
      simpa [Bench.SagaInv.movementExists, Bench.SagaInv.decreaseStockRepo] using hnoInc
    refine ⟨?_, ?_, ?_, ?_⟩
    · simp [Bench.SagaInv.decreaseStock, hc, hnoDec, show ¬ c < 1 by omega]
    · simp [Bench.SagaInv.compensateStock, hlock1, hnoInc1]
    · have : c - 1 + 1 = c := by omega
      simp [Bench.SagaInv.getProductForUpdate, Bench.SagaInv.increaseStockRepo,
        Bench.SagaInv.decreaseStockRepo, Bench.lookupA_adjustA_self,
        show Bench.lookupA s.products pid = some c from hc, this]
    · have hf : s.movements.filter (fun m => m.orderId = oid) = [] := hfresh
      simp [Bench.SagaInv.movementsFor, Bench.SagaInv.increaseStockRepo,
        Bench.SagaInv.decreaseStockRepo, List.filter_cons, hf]
  · intro s uid oid a cur hw hfresh hfunds
    have hnoDeb := Bench.SagaPay.paymentExists_false_of_fresh s oid "debit" hfresh
    have hnoCred := Bench.SagaPay.paymentExists_false_of_fresh s oid "credit" hfresh
    have hlock1 : Bench.SagaPay.getWalletForUpdate
        (Bench.SagaPay.debitWalletRepo s uid oid a) uid = some (cur - a) := by
      simp [Bench.SagaPay.getWalletForUpdate, Bench.SagaPay.debitWalletRepo,
        Bench.lookupA_adjustA_self,
        show Bench.lookupA s.wallets uid = some cur from hw]
    have hnoCred1 : Bench.SagaPay.paymentExists
        (Bench.SagaPay.debitWalletRepo s uid oid a) oid "credit" = false := by
      simpa [Bench.SagaPay.paymentExists, Bench.SagaPay.debitWalletRepo] using hnoCred
    refine ⟨?_, ?_, ?_, ?_⟩
    · simp [Bench.SagaPay.debitPayment, hw, hnoDeb, show ¬ cur < a by omega]
    · simp [Bench.SagaPay.compensatePayment, hlock1, hnoCred1]
    · have : cur - a + a = cur := by omega
      simp [Bench.SagaPay.getWalletForUpdate, Bench.SagaPay.creditWalletRepo,
        Bench.SagaPay.debitWalletRepo, Bench.lookupA_adjustA_self,
        show Bench.lookupA s.wallets uid = some cur from hw, this]
    · have hf : s.payments.filter (fun p => p.orderId = oid) = [] := hfresh
      simp [Bench.SagaPay.paymentsFor, Bench.SagaPay.creditWalletRepo,
        Bench.SagaPay.debitWalletRepo, List.filter_cons, hf]

/-- Witness for `sagaRoundTripRestoresBalances`: product with stock 5 and
wallet with balance 100, forward then compensation for one order. -/
theorem sagaRoundTripRestoresBalances_witness :
    Bench.SagaInv.decreaseStock ⟨[("p1", 5)], []⟩ "p1" "o1"
      = .ok (Bench.SagaInv.decreaseStockRepo ⟨[("p1", 5)], []⟩ "p1" "o1") ∧
    Bench.SagaInv.getProductForUpdate
        (Bench.SagaInv.increaseStockRepo
          (Bench.SagaInv.decreaseStockRepo ⟨[("p1", 5)], []⟩ "p1" "o1") "p1" "o1") "p1"
      = some 5 ∧
    Bench.SagaInv.movementsFor
        (Bench.SagaInv.increaseStockRepo
          (Bench.SagaInv.decreaseStockRepo ⟨[("p1", 5)], []⟩ "p1" "o1") "p1" "o1") "o1"
      = [⟨"p1", "o1", "increased"⟩, ⟨"p1", "o1", "decreased"⟩] ∧
    Bench.SagaPay.debitPayment ⟨[("u1", 100)], []⟩ "u1" "o1" 30
      = .ok (Bench.SagaPay.debitWalletRepo ⟨[("u1", 100)], []⟩ "u1" "o1" 30) ∧
    Bench.SagaPay.getWalletForUpdate
        (Bench.SagaPay.creditWalletRepo
          (Bench.SagaPay.debitWalletRepo ⟨[("u1", 100)], []⟩ "u1" "o1" 30) "u1" "o1" 30)
        "u1"
      = some 100 ∧
    Bench.SagaPay.paymentsFor
        (Bench.SagaPay.creditWalletRepo
          (Bench.SagaPay.debitWalletRepo ⟨[("u1", 100)], []⟩ "u1" "o1" 30) "u1" "o1" 30)
        "o1"
      = [⟨"u1", "o1", 30, "credit"⟩, ⟨"u1", "o1", 30, "debit"⟩] :=
  ⟨(sagaRoundTripRestoresBalances.1 ⟨[("p1", 5)], []⟩ "p1" "o1" 5 (by rfl) (by rfl)
      (by decide)).1,
   (sagaRoundTripRestoresBalances.1 ⟨[("p1", 5)], []⟩ "p1" "o1" 5 (by rfl) (by rfl)
      (by decide)).2.2.1,
   (sagaRoundTripRestoresBalances.1 ⟨[("p1", 5)], []⟩ "p1" "o1" 5 (by rfl) (by rfl)
      (by decide)).2.2.2,
   (sagaRoundTripRestoresBalances.2 ⟨[("u1", 100)], []⟩ "u1" "o1" 30 100 (by rfl) (by rfl)
      (by decide)).1,
   (sagaRoundTripRestoresBalances.2 ⟨[("u1", 100)], []⟩ "u1" "o1" 30 100 (by rfl) (by rfl)
      (by decide)).2.2.1,
   (sagaRoundTripRestoresBalances.2 ⟨[("u1", 100)], []⟩ "u1" "o1" 30 100 (by rfl) (by rfl)
      (by decide)).2.2.2⟩

/-- C10: a Saga compensation for an order whose forward step never ran (no
ledger row of either direction exists for the order) does not fail and is
not a noop — it unconditionally increments the resource and inserts the
reverse ledger row, leaving the balance strictly above its value before the
call. -/
theorem sagaSpuriousCompensationOvershoots :
    (∀ (s : Bench.SagaInv.InvState) (pid oid : String) (c : Int),
      Bench.SagaInv.getProductForUpdate s pid = some c →
      Bench.SagaInv.movementsFor s oid = [] →
      Bench.SagaInv.compensateStock s pid oid
        = .ok (Bench.SagaInv.increaseStockRepo s pid oid) ∧
      Bench.SagaInv.getProductForUpdate (Bench.SagaInv.increaseStockRepo s pid oid) pid
        = some (c + 1) ∧
      Bench.SagaInv.movementsFor (Bench.SagaInv.increaseStockRepo s pid oid) oid
        = [⟨pid, oid, "increased"⟩] ∧
      c < c + 1) ∧
    (∀ (s : Bench.SagaPay.PayState) (uid oid : String) (a cur : Int),
      Bench.SagaPay.getWalletForUpdate s uid = some cur →
      Bench.SagaPay.paymentsFor s oid = [] →
      0 < a →
      Bench.SagaPay.compensatePayment s uid oid a
        = .ok (Bench.SagaPay.creditWalletRepo s uid oid a) ∧
      Bench.SagaPay.getWalletForUpdate (Bench.SagaPay.creditWalletRepo s uid oid a) uid
        = some (cur + a) ∧
      Bench.SagaPay.paymentsFor (Bench.SagaPay.creditWalletRepo s uid oid a) oid
        = [⟨uid, oid, a, "credit"⟩] ∧
      cur < cur + a) := by
  constructor
  · intro s pid oid c hc hfresh
    have hnoInc := Bench.SagaInv.movementExists_false_of_fresh s oid "increased" hfresh
    have hf : s.movements.filter (fun m => m.orderId = oid) = [] := hfresh
    refine ⟨?_, ?_, ?_, by omega⟩
    · simp [Bench.SagaInv.compensateStock, hc, hnoInc]
    · simp [Bench.SagaInv.getProductForUpdate, Bench.SagaInv.increaseStockRepo,
        Bench.lookupA_adjustA_self,
        show Bench.lookupA s.products pid = some c from hc]
    · simp [Bench.SagaInv.movementsFor, Bench.SagaInv.increaseStockRepo,
        List.filter_cons, hf]
  · intro s uid oid a cur hw hfresh hpos
    have hnoCred := Bench.SagaPay.paymentExists_false_of_fresh s oid "credit" hfresh
    have hf : s.payments.filter (fun p => p.orderId = oid) = [] := hfresh
    refine ⟨?_, ?_, ?_, by omega⟩
    · simp [Bench.SagaPay.compensatePayment, hw, hnoCred]
    · simp [Bench.SagaPay.getWalletForUpdate, Bench.SagaPay.creditWalletRepo,
        Bench.lookupA_adjustA_self,
        show Bench.lookupA s.wallets uid = some cur from hw]
    · simp [Bench.SagaPay.paymentsFor, Bench.SagaPay.creditWalletRepo,
        List.filter_cons, hf]

/-- Witness for `sagaSpuriousCompensationOvershoots`: compensations applied
to stores in which the forward step never ran. -/
theorem sagaSpuriousCompensationOvershoots_witness :
    Bench.SagaInv.compensateStock ⟨[("p9", 7)], []⟩ "p9" "o9"
      = .ok (Bench.SagaInv.increaseStockRepo ⟨[("p9", 7)], []⟩ "p9" "o9") ∧
    Bench.SagaInv.getProductForUpdate
        (Bench.SagaInv.increaseStockRepo ⟨[("p9", 7)], []⟩ "p9" "o9") "p9"
      = some (7 + 1) ∧
    Bench.SagaInv.movementsFor
        (Bench.SagaInv.increaseStockRepo ⟨[("p9", 7)], []⟩ "p9" "o9") "o9"
      = [⟨"p9", "o9", "increased"⟩] ∧
    Bench.SagaPay.compensatePayment ⟨[("u9", 40)], []⟩ "u9" "o9" 25
      = .ok (Bench.SagaPay.creditWalletRepo ⟨[("u9", 40)], []⟩ "u9" "o9" 25) ∧
    Bench.SagaPay.getWalletForUpdate
        (Bench.SagaPay.creditWalletRepo ⟨[("u9", 40)], []⟩ "u9" "o9" 25) "u9"
      = some (40 + 25) ∧
    Bench.SagaPay.paymentsFor
        (Bench.SagaPay.creditWalletRepo ⟨[("u9", 40)], []⟩ "u9" "o9" 25) "o9"
      = [⟨"u9", "o9", 25, "credit"⟩] :=
  ⟨(sagaSpuriousCompensationOvershoots.1 ⟨[("p9", 7)], []⟩ "p9" "o9" 7 (by rfl)
      (by rfl)).1,
   (sagaSpuriousCompensationOvershoots.1 ⟨[("p9", 7)], []⟩ "p9" "o9" 7 (by rfl)
      (by rfl)).2.1,
   (sagaSpuriousCompensationOvershoots.1 ⟨[("p9", 7)], []⟩ "p9" "o9" 7 (by rfl)
      (by rfl)).2.2.1,
   (sagaSpuriousCompensationOvershoots.2 ⟨[("u9", 40)], []⟩ "u9" "o9" 25 40 (by rfl)
      (by rfl) (by decide)).1,
   (sagaSpuriousCompensationOvershoots.2 ⟨[("u9", 40)], []⟩ "u9" "o9" 25 40 (by rfl)
      (by rfl) (by decide)).2.1,
   (sagaSpuriousCompensationOvershoots.2 ⟨[("u9", 40)], []⟩ "u9" "o9" 25 40 (by rfl)
      (by rfl) (by decide)).2.2.1⟩
